import Mathlib

/-!
Verification of the stock-selector swing pipeline (filters, scorer,
trade setup, main scan loop) against its natural-language specification.

Shallow embedding conventions:
* Python floats are modelled as `Option ℚ` where `none` stands for NaN
  (pandas' missing-value marker); raw OHLCV data, which the pipeline
  receives already materialized, is plain `ℚ`.
* NaN comparison semantics follow IEEE/Python: every ordered comparison
  with NaN is false (`oLt`, `oLe` below).
* Python dictionaries are association lists `Attrs`; lookup takes the
  last binding so that `dict` merges (later keys override) are modelled
  by list append.
* Fallible code returns `Option`/`Except`; per-site failure reasons are
  the constructors of `FailReason`, one per distinct `return False`
  site in the source (the source formats them as f-strings).
-/

namespace StockSelector

/-- Ordered comparison `a < b` on NaN-capable floats: false if either is NaN. -/
def oLt (a b : Option ℚ) : Bool :=
  match a, b with
  | some x, some y => decide (x < y)
  | _, _ => false

/-- Ordered comparison `a ≤ b` on NaN-capable floats: false if either is NaN. -/
def oLe (a b : Option ℚ) : Bool :=
  match a, b with
  | some x, some y => decide (x ≤ y)
  | _, _ => false

/-- Python `min(a, x)` where `a` is a plain number and `x` may be NaN:
the fold keeps `a` when the comparison with NaN is false. -/
def pyMin (a : ℚ) (x : Option ℚ) : ℚ :=
  match x with
  | some y => if y < a then y else a
  | none => a

/-- Python `max(a, x)` where `a` is a plain number and `x` may be NaN. -/
def pyMax (a : ℚ) (x : Option ℚ) : ℚ :=
  match x with
  | some y => if y > a then y else a
  | none => a

/-- Failure reasons, one constructor per distinct `return False, {"reason": …}`
site in `filters.py`; payloads carry the values the source interpolates
into the reason string. -/
inductive FailReason where
  | insufficientData
  | priceNotAbove200EMA
  | emaAlignmentFailed
  | notBullishRegime
  | ema20SlopeNotPositive
  | adxBelowMin
  | rsiNotInRange
  | atrRatioBelowMultiplier
  | volumeBelowAverage
  | notOutperformingNifty
  | tooFewHigherLows
  | weeklyNotSuitable
  | noIntradayData
  | insufficientIntradayCandles
  | priceNotAboveVWAP
  | candleDroppedBelowVWAP (i : ℕ)
  | largeUpperWick (i : ℕ) (ratio : ℚ)
  | intradayVolumeBelowAverage
  | noTradeSetup
  | stopTooTight (pct : ℚ)
  | stopTooWide (pct : ℚ)
  | rrTooLow (rr : ℚ)
  | tooCloseToResistance (pct : ℚ)
  | tooFarFromSupport (pct : ℚ)
  deriving DecidableEq

/-- A Python dictionary value as used by the pipeline: numbers (with NaN),
booleans, strings, `None`, nested dicts, and failure reasons (the source
stores the formatted reason string under the `"reason"` key). -/
inductive AttrVal where
  | num (x : ℚ)
  | nan
  | bool (b : Bool)
  | str (s : String)
  | null
  | dict (d : List (String × AttrVal))
  | reasonV (r : FailReason)

/-- Attribute dictionary: insertion-ordered association list. -/
abbrev Attrs := List (String × AttrVal)

/-- Dictionary lookup; the LAST binding of a key wins, so that Python
`{**a, **b}` merges are modelled by `a ++ b`. -/
def Attrs.get (d : Attrs) (k : String) : Option AttrVal :=
  (d.reverse.find? (fun kv => kv.1 = k)).map (·.2)

/-- Python truthiness of a dictionary value (NaN is truthy; `None`, `0`,
`""`, `{}` and `False` are falsy). -/
def AttrVal.truthy : AttrVal → Bool
  | .num x => x ≠ 0
  | .nan => true
  | .bool b => b
  | .str s => s ≠ ""
  | .null => false
  | .dict d => !d.isEmpty
  | .reasonV _ => true

/-- Numeric view of a dictionary value, as the scorer's arithmetic sees it
(`True` counts as 1). Strings/dicts/`None` would raise a `TypeError` in
Python; the program never stores them under numeric keys, and we map them
to NaN so the totalized scorer stays within the same clamped range. -/
def AttrVal.asNum : AttrVal → Option ℚ
  | .num x => some x
  | .nan => none
  | .bool b => some (if b then 1 else 0)
  | _ => none

/-- `d.get(k, default)` followed by use as a number. -/
def Attrs.getNum (d : Attrs) (k : String) (dflt : ℚ) : Option ℚ :=
  match d.get k with
  | none => some dflt
  | some v => v.asNum

/-- `d.get(k)` truthiness (missing key → `None` → falsy). -/
def Attrs.truthyAt (d : Attrs) (k : String) : Bool :=
  match d.get k with
  | none => false
  | some v => v.truthy

/-- `k in d` (Python key-membership test). -/
def Attrs.hasKey (d : Attrs) (k : String) : Bool :=
  d.any (fun kv => kv.1 = k)

/-! ## Configuration (`config/swing_config.py`) -/

/-- Filter thresholds from `swing_config.FILTER_THRESHOLDS`. -/
structure FilterThresholds where
  ADX_MIN : ℚ
  RSI_MIN : ℚ
  RSI_MAX : ℚ
  ATR_MULTIPLIER : ℚ
  VOLUME_MULTIPLIER : ℚ
  EMA_SLOPE_DAYS : ℕ
  MIN_HIGHER_LOWS : ℕ
  CONSOLIDATION_RANGE : ℚ
  CONSOLIDATION_DAYS : ℕ
  VOLUME_EXPANSION_DAYS : ℕ
  MIN_DISTANCE_TO_RESISTANCE : ℚ
  MAX_DISTANCE_TO_SUPPORT : ℚ
  MIN_STOP_DISTANCE : ℚ
  MAX_STOP_DISTANCE : ℚ
  MIN_RISK_REWARD : ℚ
  INTRADAY_VOLUME_MULTIPLIER : ℚ
  UPPER_WICK_THRESHOLD : ℚ
  VWAP_CANDLES_TO_CHECK : ℕ

def FILTER_THRESHOLDS : FilterThresholds where
  ADX_MIN := 23
  RSI_MIN := 42
  RSI_MAX := 62
  ATR_MULTIPLIER := 23/20        -- 1.15
  VOLUME_MULTIPLIER := 1
  EMA_SLOPE_DAYS := 5
  MIN_HIGHER_LOWS := 2
  CONSOLIDATION_RANGE := 3/100   -- 0.03
  CONSOLIDATION_DAYS := 5
  VOLUME_EXPANSION_DAYS := 3
  MIN_DISTANCE_TO_RESISTANCE := 2
  MAX_DISTANCE_TO_SUPPORT := 5
  MIN_STOP_DISTANCE := 1/2       -- 0.5
  MAX_STOP_DISTANCE := 2
  MIN_RISK_REWARD := 3/2         -- 1.5
  INTRADAY_VOLUME_MULTIPLIER := 6/5  -- 1.2
  UPPER_WICK_THRESHOLD := 1/2    -- 0.5
  VWAP_CANDLES_TO_CHECK := 2

/-- Scoring weights from `swing_config.SCORING_WEIGHTS`
(the source comments: "must sum to 100"). -/
structure ScoringWeights where
  trend_strength : ℚ
  rsi_position : ℚ
  relative_strength : ℚ
  volume_expansion : ℚ
  atr_percentage : ℚ
  weekly_alignment : ℚ
  price_action : ℚ
  trade_quality : ℚ

def SCORING_WEIGHTS : ScoringWeights where
  trend_strength := 25
  rsi_position := 15
  relative_strength := 15
  volume_expansion := 10
  atr_percentage := 5
  weekly_alignment := 10
  price_action := 10
  trade_quality := 10

/-- Sum of a weight profile, for the `Σ weights = 100` invariant. -/
def ScoringWeights.total (w : ScoringWeights) : ℚ :=
  w.trend_strength + w.rsi_position + w.relative_strength + w.volume_expansion
    + w.atr_percentage + w.weekly_alignment + w.price_action + w.trade_quality

def MAX_STOCKS_TO_SELECT : ℕ := 3

/-- Evaluating `config/swing_config.py` is plain constant binding: the
module body performs no validation of any kind, so loading always
succeeds. -/
def loadSwingConfig : Except String (FilterThresholds × ScoringWeights × ℕ) :=
  Except.ok (FILTER_THRESHOLDS, SCORING_WEIGHTS, MAX_STOCKS_TO_SELECT)

/-! ## Scorer normalization (`scorers/swing_scorer.py`) -/

/-- `StockScorer.normalize_to_range`. The source computes
`max(0, min(100, ((value - min_val) / (max_val - min_val)) * 100))`;
`pyMin`/`pyMax` reproduce Python `min`/`max` when `value` is NaN. -/
def normalize_to_range (value : Option ℚ) (min_val max_val : ℚ) : ℚ :=
  if max_val = min_val then 50
  else pyMax 0 (some (pyMin 100 (value.map (fun v => (v - min_val) / (max_val - min_val) * 100))))

/-- `Option ℚ` stored back into a dict (NaN-preserving), as pandas floats. -/
def ofO : Option ℚ → AttrVal
  | some x => .num x
  | none => .nan

/-- `Option ℚ` stored as number-or-`None` (Python conditional expressions
like `x if cond else None`). -/
def ofONull : Option ℚ → AttrVal
  | some x => .num x
  | none => .null

/-! ## Candle rows

Per the data model, OHLCV values are plain numbers; indicator columns
(attached by the external indicator library) may be NaN. -/

/-- One daily candle with its indicator columns. -/
structure DailyRow where
  open_ : ℚ
  high : ℚ
  low : ℚ
  close : ℚ
  volume : ℚ
  ema_20 : Option ℚ
  ema_50 : Option ℚ
  ema_200 : Option ℚ
  rsi : Option ℚ
  adx : Option ℚ
  atr : Option ℚ

instance : Inhabited DailyRow := ⟨⟨0, 0, 0, 0, 0, none, none, none, none, none, none⟩⟩

/-- One 15-minute intraday candle with its indicator columns; `minutes` is
the candle timestamp as minutes after midnight (9:30 = 570, 10:00 = 600). -/
structure IRow where
  minutes : ℕ
  open_ : ℚ
  high : ℚ
  low : ℚ
  close : ℚ
  volume : ℚ
  vwap : Option ℚ
  volume_avg_20 : Option ℚ
  ema_9 : Option ℚ
  ema_20_intraday : Option ℚ

instance : Inhabited IRow := ⟨⟨0, 0, 0, 0, 0, 0, none, none, none, none⟩⟩

/-- One weekly candle with the indicator columns `check_weekly_trend` reads. -/
structure WeeklyRow where
  close : ℚ
  ema_20 : Option ℚ
  ema_50 : Option ℚ
  rsi : Option ℚ

instance : Inhabited WeeklyRow := ⟨⟨0, none, none, none⟩⟩

/-- The last `n` elements of a list (`Series.tail(n)` / `iloc[-n:]`). -/
def lastN (n : ℕ) (l : List α) : List α := l.drop (l.length - n)

/-! ## Indicator helpers (`indicators.py`) -/

/-- Least-squares slope of `ys` against `x = 0, 1, …` (degree-1
`np.polyfit`). -/
def lsSlope (ys : List ℚ) : ℚ :=
  let n : ℚ := ys.length
  let xs : List ℚ := (List.range ys.length).map (fun i => (i : ℚ))
  let sx := xs.sum
  let sy := ys.sum
  let sxy := ((xs.zip ys).map (fun p => p.1 * p.2)).sum
  let sxx := (xs.map (fun x => x * x)).sum
  (n * sxy - sx * sy) / (n * sxx - sx * sx)

/-- `calculate_ema_slope`: 0.0 when the series is shorter than `days`,
otherwise the least-squares slope of the last `days` values; a NaN among
them makes the fit NaN. -/
def calculate_ema_slope (emaSeries : List (Option ℚ)) (days : ℕ) : Option ℚ :=
  if emaSeries.length < days then some 0
  else
    let recent := lastN days emaSeries
    if recent.all (·.isSome) then some (lsSlope (recent.filterMap id)) else none

/-- `calculate_volume_ratio`: current volume over the mean of the previous
`period` volumes (`iloc[-period-1:-1]`); raw volumes are never NaN. -/
def calculate_volume_ratio (vols : List ℚ) (period : ℕ) : ℚ :=
  if vols.length < period + 1 then 0
  else
    let window := (lastN (period + 1) vols).take period
    let avg := window.sum / (period : ℚ)
    let current := (vols.getLast?).getD 0
    if avg = 0 then 0 else current / avg

/-- `calculate_atr_ratio`: last ATR over the mean of the previous `period`
ATR values. The pandas mean skips NaN (all-NaN mean is NaN), and a NaN
current ATR gives a NaN ratio. -/
def calculate_atr_ratio (atrSeries : List (Option ℚ)) (period : ℕ) : Option ℚ :=
  if atrSeries.length < period + 1 then some 0
  else
    let window := (lastN (period + 1) atrSeries).take period
    let vals := window.filterMap id
    if vals.isEmpty then none
    else
      let avg := vals.sum / (vals.length : ℚ)
      if avg = 0 then some 0
      else
        match (atrSeries.getLast?).getD none with
        | none => none
        | some cur => some (cur / avg)

/-- `calculate_relative_strength`: percentage return of the stock over
`period` candles minus the index return over the same window. -/
def calculate_relative_strength (stockCloses idxCloses : List ℚ) (period : ℕ) : ℚ :=
  if stockCloses.length < period ∨ idxCloses.length < period then 0
  else
    let sLast := (stockCloses.getLast?).getD 0
    let sPrev := ((lastN period stockCloses).head?).getD 0
    let iLast := (idxCloses.getLast?).getD 0
    let iPrev := ((lastN period idxCloses).head?).getD 0
    (sLast - sPrev) / sPrev * 100 - (iLast - iPrev) / iPrev * 100

/-- Count of consecutive strictly-higher values from the start of the
window, stopping at the first non-increase (`check_higher_lows` loop). -/
def countHigherLows : List ℚ → ℕ
  | a :: b :: rest => if a < b then 1 + countHigherLows (b :: rest) else 0
  | _ => 0

/-- `check_higher_lows` over the `low` column. -/
def check_higher_lows (lows : List ℚ) (lookback : ℕ) : ℕ :=
  if lows.length < lookback then 0 else countHigherLows (lastN lookback lows)

/-- `detect_consolidation`: range of the last `days` candles, as a fraction
of the window low, at most `max_range_pct`. (Zero prices, where Python
float division yields `inf`, are outside the modelled domain.) -/
def detect_consolidation (df : List DailyRow) (days : ℕ) (max_range_pct : ℚ) : Bool :=
  if df.length < days then false
  else
    let recent := lastN days df
    let hi := ((recent.map (·.high)).max?).getD 0
    let lo := ((recent.map (·.low)).min?).getD 0
    decide ((hi - lo) / lo ≤ max_range_pct)

/-- Strictly increasing run test for `check_volume_expansion`. -/
def strictlyIncr : List ℚ → Bool
  | a :: b :: rest => decide (a < b) && strictlyIncr (b :: rest)
  | _ => true

/-- `check_volume_expansion`: each of the last `days` volumes above the
previous one. -/
def check_volume_expansion (vols : List ℚ) (days : ℕ) : Bool :=
  if vols.length < days then false else strictlyIncr (lastN days vols)

/-- `detect_bullish_engulfing` over the last two daily candles. -/
def detect_bullish_engulfing (df : List DailyRow) : Bool :=
  match lastN 2 df with
  | [prev, curr] =>
      decide (prev.close < prev.open_) && decide (curr.close > curr.open_)
        && decide (curr.open_ ≤ prev.close) && decide (curr.close ≥ prev.open_)
  | _ => false

/-- `find_swing_low`: minimum of the last `lookback` intraday lows
(the whole series when shorter). -/
def find_swing_low (df : List IRow) (lookback : ℕ) : ℚ :=
  (((lastN lookback df).map (·.low)).min?).getD 0

/-! ## Weekly trend (`market_analysis.MarketAnalyzer.check_weekly_trend`) -/

def check_weekly_trend (weekly_df : List WeeklyRow) : Attrs :=
  if weekly_df.isEmpty || weekly_df.length < 50 then
    [("weekly_trend", .str "Unknown"), ("reason", .str "Insufficient data")]
  else
    let latest := (weekly_df.getLast?).getD default
    let ema_aligned :=
      match latest.ema_20, latest.ema_50 with
      | some e20, some e50 => decide (e50 < e20 ∧ e20 < latest.close)
      | _, _ => false
    let rsi_ok :=
      match latest.rsi with
      | some r => decide (40 < r ∧ r < 70)
      | none => false
    let trendSuitable : String × Bool :=
      if ema_aligned && rsi_ok then ("Bullish", true)
      else if ema_aligned then ("Bullish (RSI warning)", true)
      else ("Not Bullish", false)
    [("weekly_trend", .str trendSuitable.1),
     ("weekly_rsi", .num (latest.rsi.getD 0)),
     ("ema_aligned", .bool ema_aligned),
     ("suitable_for_swing", .bool trendSuitable.2)]

/-! ## Daily filter pipeline (`filters.StockFilter.apply_daily_filters`)

The source is a straight-line sequence of numbered filters, each either
returning `False, {"reason": …}` or recording attributes in `results`.
We render it as an ordered stage list interpreted by `runStages`; each
`DStage` below is one numbered filter block of the source. -/

/-- The inputs of `apply_daily_filters`: the symbol's daily frame and the
NIFTY50 index closes held by `StockFilter` (used only by the
relative-strength filter). -/
structure DailyCtx where
  df : List DailyRow
  niftyCloses : List ℚ

/-- Latest daily candle (`df.iloc[-1]`; only read after the length guard). -/
def latestD (ctx : DailyCtx) : DailyRow := (ctx.df.getLast?).getD default

/-- One gating stage: pass predicate, attributes recorded on pass, and the
reason emitted on failure. -/
structure DStage where
  pred : DailyCtx → Bool
  attrs : DailyCtx → Attrs
  reason : FailReason

/-- `if df.empty or len(df) < 200: return False, {"reason": "Insufficient data"}` -/
def stageData : DStage where
  pred ctx := !(ctx.df.isEmpty || decide (ctx.df.length < 200))
  attrs _ := []
  reason := .insufficientData

/-- Filter 1: Price > 200 EMA. -/
def stageAbove200EMA : DStage where
  pred ctx := !((latestD ctx).ema_200.isNone || oLe (some (latestD ctx).close) (latestD ctx).ema_200)
  attrs _ := [("above_200ema", .bool true)]
  reason := .priceNotAbove200EMA

/-- Filter 2: Close > EMA20 > EMA50. -/
def stageEmaAlignment : DStage where
  pred ctx :=
    !((latestD ctx).ema_20.isNone || (latestD ctx).ema_50.isNone
      || oLe (some (latestD ctx).close) (latestD ctx).ema_20
      || oLe (latestD ctx).ema_20 (latestD ctx).ema_50)
  attrs _ := [("ema_alignment", .bool true)]
  reason := .emaAlignmentFailed

/-- Filter 3: 50 EMA > 200 EMA (bullish regime). -/
def stageBullishRegime : DStage where
  pred ctx := !((latestD ctx).ema_200.isNone || oLe (latestD ctx).ema_50 (latestD ctx).ema_200)
  attrs _ := [("bullish_regime", .bool true)]
  reason := .notBullishRegime

/-- EMA20 slope over the configured window (shared by pred and attrs). -/
def dailyEmaSlope (ctx : DailyCtx) : Option ℚ :=
  calculate_ema_slope (ctx.df.map (·.ema_20)) FILTER_THRESHOLDS.EMA_SLOPE_DAYS

/-- Filter 4: EMA20 slope positive (last 5 days). -/
def stageEmaSlope : DStage where
  pred ctx := !(oLe (dailyEmaSlope ctx) (some 0))
  attrs ctx := [("ema20_slope", ofO (dailyEmaSlope ctx))]
  reason := .ema20SlopeNotPositive

/-- Filter 5: ADX > threshold. -/
def stageADX : DStage where
  pred ctx := !((latestD ctx).adx.isNone || oLt (latestD ctx).adx (some FILTER_THRESHOLDS.ADX_MIN))
  attrs ctx := [("adx", ofO (latestD ctx).adx)]
  reason := .adxBelowMin

/-- Filter 6: RSI inside the configured band. -/
def stageRSI : DStage where
  pred ctx :=
    !((latestD ctx).rsi.isNone || oLt (latestD ctx).rsi (some FILTER_THRESHOLDS.RSI_MIN)
      || oLt (some FILTER_THRESHOLDS.RSI_MAX) (latestD ctx).rsi)
  attrs ctx := [("rsi", ofO (latestD ctx).rsi)]
  reason := .rsiNotInRange

/-- ATR ratio of the frame (shared by pred and attrs). -/
def dailyAtrRatio (ctx : DailyCtx) : Option ℚ :=
  calculate_atr_ratio (ctx.df.map (·.atr)) 20

/-- Filter 7: ATR at least `ATR_MULTIPLIER` times its 20-day average. -/
def stageATRRatio : DStage where
  pred ctx := !(oLt (dailyAtrRatio ctx) (some FILTER_THRESHOLDS.ATR_MULTIPLIER))
  attrs ctx := [("atr_ratio", ofO (dailyAtrRatio ctx))]
  reason := .atrRatioBelowMultiplier

/-- Volume ratio of the frame (shared by pred and attrs). -/
def dailyVolumeRatio (ctx : DailyCtx) : ℚ :=
  calculate_volume_ratio (ctx.df.map (·.volume)) 20

/-- Filter 8: current volume above its 20-day average. -/
def stageVolume : DStage where
  pred ctx := !(decide (dailyVolumeRatio ctx < FILTER_THRESHOLDS.VOLUME_MULTIPLIER))
  attrs ctx := [("volume_ratio", .num (dailyVolumeRatio ctx))]
  reason := .volumeBelowAverage

/-- Relative strength of the frame vs the NIFTY50 closes. -/
def dailyRelStrength (ctx : DailyCtx) : ℚ :=
  calculate_relative_strength (ctx.df.map (·.close)) ctx.niftyCloses 20

/-- Filter 9: Relative Strength vs NIFTY50 > 0. -/
def stageRelStrength : DStage where
  pred ctx := !(decide (dailyRelStrength ctx ≤ 0))
  attrs ctx := [("relative_strength", .num (dailyRelStrength ctx))]
  reason := .notOutperformingNifty

/-- Higher-lows count of the frame. -/
def dailyHigherLows (ctx : DailyCtx) : ℕ :=
  check_higher_lows (ctx.df.map (·.low)) (FILTER_THRESHOLDS.MIN_HIGHER_LOWS + 1)

/-- Filter 10: at least the configured number of consecutive higher lows. -/
def stageHigherLows : DStage where
  pred ctx := !(decide (dailyHigherLows ctx < FILTER_THRESHOLDS.MIN_HIGHER_LOWS))
  attrs ctx := [("higher_lows_count", .num (dailyHigherLows ctx))]
  reason := .tooFewHigherLows

/-- Filter 11 (optional bonus, never rejects): volume expansion pattern. -/
def stageVolumeExpansion : DStage where
  pred _ := true
  attrs ctx := [("volume_expanding",
    .bool (check_volume_expansion (ctx.df.map (·.volume)) FILTER_THRESHOLDS.VOLUME_EXPANSION_DAYS))]
  reason := .insufficientData   -- unreachable: the stage never fails

/-- Filter 12 (optional bonus): breaking out of consolidation, checked on
the frame without today (`df.iloc[:-1]`). -/
def stageConsolidation : DStage where
  pred _ := true
  attrs ctx := [("breakout_from_consolidation",
    .bool (detect_consolidation ctx.df.dropLast FILTER_THRESHOLDS.CONSOLIDATION_DAYS
      FILTER_THRESHOLDS.CONSOLIDATION_RANGE))]
  reason := .insufficientData   -- unreachable: the stage never fails

/-- Filter 13 (optional bonus): bullish engulfing pattern. -/
def stageBullishPattern : DStage where
  pred _ := true
  attrs ctx := [("bullish_pattern", .bool (detect_bullish_engulfing ctx.df))]
  reason := .insufficientData   -- unreachable: the stage never fails

/-- The ordered daily pipeline of `apply_daily_filters`. -/
def dailyStages : List DStage :=
  [stageData, stageAbove200EMA, stageEmaAlignment, stageBullishRegime, stageEmaSlope,
   stageADX, stageRSI, stageATRRatio, stageVolume, stageRelStrength, stageHigherLows,
   stageVolumeExpansion, stageConsolidation, stageBullishPattern]

/-- Ordered, short-circuiting interpretation of a stage list: advance only
on pass, appending the stage's attributes; the first failure returns
`False` with a fresh `{"reason": …}` dict, exactly as each source filter
does. -/
def runStages : List DStage → DailyCtx → Attrs → Bool × Attrs
  | [], _, acc => (true, acc)
  | s :: rest, ctx, acc =>
    if s.pred ctx then runStages rest ctx (acc ++ s.attrs ctx)
    else (false, [("reason", .reasonV s.reason)])

/-- Number of stage predicates evaluated on a run (stage-call counting for
the short-circuit property): every stage up to and including the first
failing one. -/
def evalCount : List DStage → DailyCtx → ℕ
  | [], _ => 0
  | s :: rest, ctx => 1 + (if s.pred ctx then evalCount rest ctx else 0)

/-- `StockFilter.apply_daily_filters`: run the 14 blocks in order; on full
success append `results["passed"] = True`. -/
def apply_daily_filters (ctx : DailyCtx) : Bool × Attrs :=
  let r := runStages dailyStages ctx []
  if r.1 then (true, r.2 ++ [("passed", .bool true)]) else r

/-! ## Intraday filters (`filters.StockFilter.apply_intraday_filters`) -/

/-- First 1-based violation of the VWAP-hold loop (Filter 7): a candle
whose VWAP is NaN or whose low is below its VWAP. -/
def vwapHoldViolation : List IRow → ℕ → Option ℕ
  | [], _ => none
  | c :: rest, i =>
    if c.vwap.isNone || oLt (some c.low) c.vwap then some (i + 1)
    else vwapHoldViolation rest (i + 1)

/-- First 1-based violation of the upper-wick loop (Filter 8), with the
offending wick ratio; zero-range candles are skipped (`continue`). -/
def wickViolation : List IRow → ℕ → Option (ℕ × ℚ)
  | [], _ => none
  | c :: rest, i =>
    let range := c.high - c.low
    if range = 0 then wickViolation rest (i + 1)
    else
      let upper_wick := c.high - max c.open_ c.close
      let wick_ratio := upper_wick / range
      if wick_ratio > FILTER_THRESHOLDS.UPPER_WICK_THRESHOLD then some (i + 1, wick_ratio)
      else wickViolation rest (i + 1)

/-- The 9:30–10:00 window of an intraday frame (minutes 570..600, both
inclusive, as in the source's time mask). -/
def intradayWindow (df : List IRow) : List IRow :=
  df.filter (fun c => decide (570 ≤ c.minutes) && decide (c.minutes ≤ 600))

/-- `StockFilter.apply_intraday_filters`, block by block. The final volume
check is skipped ("If no volume average, skip this check") when the
20-period average is NaN or zero. -/
def apply_intraday_filters (df : List IRow) : Bool × Attrs :=
  if df.isEmpty then (false, [("reason", .reasonV .noIntradayData)])
  else
    let window_df := intradayWindow df
    if window_df.length < FILTER_THRESHOLDS.VWAP_CANDLES_TO_CHECK then
      (false, [("reason", .reasonV .insufficientIntradayCandles)])
    else
      let first_candles := window_df.take FILTER_THRESHOLDS.VWAP_CANDLES_TO_CHECK
      let lastC := (window_df.getLast?).getD default
      -- Filter 6: Price above VWAP
      if lastC.vwap.isNone || oLe (some lastC.close) lastC.vwap then
        (false, [("reason", .reasonV .priceNotAboveVWAP)])
      else
        -- Filter 7: first candles hold above VWAP
        match vwapHoldViolation first_candles 0 with
        | some i => (false, [("reason", .reasonV (.candleDroppedBelowVWAP i))])
        | none =>
          -- Filter 8: no large upper wick
          match wickViolation first_candles 0 with
          | some iv => (false, [("reason", .reasonV (.largeUpperWick iv.1 iv.2))])
          | none =>
            let base : Attrs :=
              [("above_vwap", .bool true), ("vwap_hold", .bool true), ("no_large_wicks", .bool true)]
            -- Filter 9: 15-min volume >= multiplier x 20-period average
            match lastC.volume_avg_20 with
            | none =>
              (true, base ++ [("volume_confirmed", .bool true), ("passed", .bool true),
                ("intraday_bias", .str "bullish")])
            | some avg =>
              if avg = 0 then
                (true, base ++ [("volume_confirmed", .bool true), ("passed", .bool true),
                  ("intraday_bias", .str "bullish")])
              else if lastC.volume < FILTER_THRESHOLDS.INTRADAY_VOLUME_MULTIPLIER * avg then
                (false, [("reason", .reasonV .intradayVolumeBelowAverage)])
              else
                (true, base ++ [("volume_confirmed", .bool true), ("passed", .bool true),
                  ("intraday_bias", .str "bullish")])

/-! ## Combined per-symbol pipeline (`filters.StockFilter.filter_stock`) -/

/-- The intraday phase of `filter_stock`, applied after the daily and
weekly phases succeeded with accumulated attributes `d`. -/
def filterStockIntraday (symbol : String) (d : Attrs) (intraday : List IRow) : Bool × Attrs :=
  let r := apply_intraday_filters intraday
  if !r.1 then (false, [("stage", .str "intraday")] ++ d ++ r.2)
  else (true, [("symbol", .str symbol), ("passed", .bool true)] ++ d ++ r.2)

/-- `StockFilter.filter_stock`: daily filters, then the optional weekly
alignment gate (Filter 14), then the intraday confirmation filters, each
short-circuiting with a tagged stage. -/
def filter_stock (symbol : String) (ctx : DailyCtx) (intraday : List IRow)
    (weekly : Option (List WeeklyRow)) : Bool × Attrs :=
  let daily := apply_daily_filters ctx
  if !daily.1 then (false, [("stage", .str "daily")] ++ daily.2)
  else
    match weekly with
    | some wdf =>
      if !wdf.isEmpty then
        let weekly_trend := check_weekly_trend wdf
        let d2 := daily.2 ++
          [("weekly_trend", (weekly_trend.get "weekly_trend").getD .null),
           ("weekly_suitable", (weekly_trend.get "suitable_for_swing").getD (.bool false))]
        if !((weekly_trend.get "suitable_for_swing").getD (.bool false)).truthy then
          (false, [("stage", .str "weekly"), ("reason", .reasonV .weeklyNotSuitable)] ++ d2)
        else filterStockIntraday symbol d2 intraday
      else
        filterStockIntraday symbol
          (daily.2 ++ [("weekly_trend", .str "Unknown"), ("weekly_suitable", .null)]) intraday
    | none =>
      filterStockIntraday symbol
        (daily.2 ++ [("weekly_trend", .str "Unknown"), ("weekly_suitable", .null)]) intraday

/-! ## Trade quality (`filters.StockFilter.validate_trade_quality`) -/

/-- Stop distance in percent: `abs((current_price - stop_loss) / current_price) * 100`. -/
def stopDistPct (trade_setup : Attrs) (current_price : ℚ) : Option ℚ :=
  ((trade_setup.get "stop_loss").bind AttrVal.asNum).map
    (fun s => |(current_price - s) / current_price| * 100)

/-- The risk-reward ratio of the EMA9 entry: `(target_ema9 - ema9) / risk_ema9`. -/
def rrRatio (trade_setup : Attrs) : Option ℚ :=
  match (trade_setup.get "target_ema9").bind AttrVal.asNum,
        (trade_setup.get "ema9").bind AttrVal.asNum,
        trade_setup.getNum "risk_ema9" 0 with
  | some t, some e, some r => some ((t - e) / r)
  | _, _, _ => none

/-- Nested-dict view (the source indexes `sr_levels` as a dict). -/
def AttrVal.asDict : AttrVal → Attrs
  | .dict d => d
  | _ => []

/-- `StockFilter.validate_trade_quality`: the second filter phase on the
derived trade setup. Each guard that cannot be evaluated (falsy
`stop_loss`, non-positive `risk_ema9`, falsy `target_ema9`/`ema9`,
absent S/R distances) is skipped. -/
def validate_trade_quality (trade_setup : Attrs) (current_price : ℚ)
    (stock_analysis : Attrs) : Bool × Attrs :=
  if trade_setup.isEmpty then (false, [("reason", .reasonV .noTradeSetup)])
  else
    let stopTruthy := trade_setup.truthyAt "stop_loss"
    let dist := stopDistPct trade_setup current_price
    if stopTruthy && oLt dist (some FILTER_THRESHOLDS.MIN_STOP_DISTANCE) then
      (false, [("reason", .reasonV (.stopTooTight (dist.getD 0)))])
    else if stopTruthy && oLt (some FILTER_THRESHOLDS.MAX_STOP_DISTANCE) dist then
      (false, [("reason", .reasonV (.stopTooWide (dist.getD 0)))])
    else
      let stopPart : Attrs := if stopTruthy then [("stop_distance_pct", ofO dist)] else []
      let rrGuard := oLt (some 0) (trade_setup.getNum "risk_ema9" 0)
        && trade_setup.truthyAt "target_ema9" && trade_setup.truthyAt "ema9"
      let rr := rrRatio trade_setup
      if rrGuard && oLt rr (some FILTER_THRESHOLDS.MIN_RISK_REWARD) then
        (false, [("reason", .reasonV (.rrTooLow (rr.getD 0)))])
      else
        let rrPart : Attrs := if rrGuard then [("risk_reward", ofO rr)] else []
        let sr_levels := ((stock_analysis.get "sr_levels").getD (.dict [])).asDict
        let resD := (sr_levels.get "resistance_distance_pct").bind AttrVal.asNum
        if sr_levels.hasKey "resistance_distance_pct"
            && oLt resD (some FILTER_THRESHOLDS.MIN_DISTANCE_TO_RESISTANCE) then
          (false, [("reason", .reasonV (.tooCloseToResistance (resD.getD 0)))])
        else
          let resPart : Attrs :=
            if sr_levels.hasKey "resistance_distance_pct" then
              [("resistance_distance_pct", ofO resD)] else []
          let supD := (sr_levels.get "support_distance_pct").bind AttrVal.asNum
          if sr_levels.hasKey "support_distance_pct"
              && oLt (some FILTER_THRESHOLDS.MAX_DISTANCE_TO_SUPPORT) supD then
            (false, [("reason", .reasonV (.tooFarFromSupport (supD.getD 0)))])
          else
            let supPart : Attrs :=
              if sr_levels.hasKey "support_distance_pct" then
                [("support_distance_pct", ofO supD)] else []
            (true, stopPart ++ rrPart ++ resPart ++ supPart ++ [("passed", .bool true)])

/-! ## Scoring (`scorers/swing_scorer.StockScorer`) -/

/-- Trend strength (blend of ADX and EMA20 slope, fixed 70/30 sub-weights). -/
def calculate_trend_score (filter_results : Attrs) : ℚ :=
  let adx := filter_results.getNum "adx" 25
  let ema_slope := filter_results.getNum "ema20_slope" 0
  let adx_score := normalize_to_range adx 25 50
  let slope_score := normalize_to_range (ema_slope.map (fun x => |x|)) 0 5
  adx_score * (7/10) + slope_score * (3/10)

/-- RSI position score: piecewise around the ideal 50–60 band. -/
def calculate_rsi_score (filter_results : Attrs) : ℚ :=
  let rsi := filter_results.getNum "rsi" 50
  if oLe (some 50) rsi && oLe rsi (some 60) then 100
  else if oLe (some 40) rsi && oLt rsi (some 50) then
    normalize_to_range rsi 40 50 * (4/10) + 60
  else if oLt (some 60) rsi && oLe rsi (some 65) then
    100 - normalize_to_range rsi 60 65 * (3/10)
  else 50

/-- Relative strength score (0 to 10% outperformance anchors). -/
def calculate_relative_strength_score (filter_results : Attrs) : ℚ :=
  normalize_to_range (filter_results.getNum "relative_strength" 0) 0 10

/-- Volume expansion score (1.0x to 2.5x anchors). -/
def calculate_volume_score (filter_results : Attrs) : ℚ :=
  normalize_to_range (filter_results.getNum "volume_ratio" 1) 1 (5/2)

/-- ATR ratio score (1.5x to 3.0x anchors). -/
def calculate_atr_score (filter_results : Attrs) : ℚ :=
  normalize_to_range (filter_results.getNum "atr_ratio" (3/2)) (3/2) 3

/-- Weekly alignment score: `is True` → 100, `is False` → 0, unknown → 50. -/
def calculate_weekly_score (filter_results : Attrs) : ℚ :=
  match filter_results.get "weekly_suitable" with
  | some (.bool true) => 100
  | some (.bool false) => 0
  | _ => 50

/-- Price action score: higher-lows base plus pattern bonuses, capped at 100. -/
def calculate_price_action_score (filter_results : Attrs) : ℚ :=
  let base := normalize_to_range (filter_results.getNum "higher_lows_count" 0) 3 5 * (4/10)
  let s1 := base + (if filter_results.truthyAt "breakout_from_consolidation" then 30 else 0)
  let s2 := s1 + (if filter_results.truthyAt "bullish_pattern" then 30 else 0)
  let s3 := s2 + (if filter_results.truthyAt "volume_expanding" then 40 else 0)
  min 100 s3

/-- Trade quality score from the nested `trade_quality` metrics dict. -/
def calculate_trade_quality_score (filter_results : Attrs) : ℚ :=
  let quality_metrics := ((filter_results.get "trade_quality").getD (.dict [])).asDict
  if quality_metrics.isEmpty || !quality_metrics.truthyAt "passed" then 50
  else
    let sd := (quality_metrics.get "stop_distance_pct").bind AttrVal.asNum
    let comp1 : ℚ :=
      if quality_metrics.truthyAt "stop_distance_pct" then
        if oLe (some (4/5)) sd && oLe sd (some (6/5)) then 50
        else pyMax 0 (sd.map (fun d => 50 - |d - 1| * 25))
      else 0
    let rr := quality_metrics.getNum "risk_reward" (3/2)
    let comp2 := normalize_to_range rr (3/2) 3 * (1/2)
    min 100 (comp1 + comp2)

/-- Round half to even at integer granularity (Python's `round`). -/
def roundHalfEven (x : ℚ) : ℤ :=
  let f := ⌊x⌋
  let frac := x - f
  if frac < 1/2 then f
  else if 1/2 < frac then f + 1
  else if f % 2 = 0 then f else f + 1

/-- `round(x, 2)`. -/
def round2 (x : ℚ) : ℚ := (roundHalfEven (x * 100) : ℚ) / 100

/-- The weighted factor sum of `calculate_total_score`, before rounding,
with the weight profile as an explicit parameter (the source reads the
module-level `SCORING_WEIGHTS`). -/
def weightedTotal (w : ScoringWeights) (filter_results : Attrs) : ℚ :=
  calculate_trend_score filter_results * w.trend_strength / 100
    + calculate_rsi_score filter_results * w.rsi_position / 100
    + calculate_relative_strength_score filter_results * w.relative_strength / 100
    + calculate_volume_score filter_results * w.volume_expansion / 100
    + calculate_atr_score filter_results * w.atr_percentage / 100
    + calculate_weekly_score filter_results * w.weekly_alignment / 100
    + calculate_price_action_score filter_results * w.price_action / 100
    + calculate_trade_quality_score filter_results * w.trade_quality / 100

/-- `StockScorer.calculate_total_score` parameterized by the weight
profile; no check of any kind is applied to the weights. -/
def calculate_total_score_w (w : ScoringWeights) (filter_results : Attrs) : ℚ :=
  round2 (weightedTotal w filter_results)

/-- `StockScorer.calculate_total_score` with the configured swing weights. -/
def calculate_total_score (filter_results : Attrs) : ℚ :=
  calculate_total_score_w SCORING_WEIGHTS filter_results

/-! ## Ranking (`scorers/swing_scorer.StockScorer.score_and_rank`) -/

/-- The sort key `x["final_score"]`. -/
def finalScoreKey (s : Attrs) : ℚ :=
  (((s.get "final_score").bind AttrVal.asNum)).getD 0

/-- First pass of `score_and_rank`: attach `final_score` and
`entry_reason` to every stock dict. -/
def scoreStocks (filtered_stocks : List Attrs) : List Attrs :=
  filtered_stocks.map (fun stock =>
    stock ++ [("final_score", .num (calculate_total_score stock)),
              ("entry_reason", .str "trend + momentum continuation")])

/-- Stable descending insertion: an element passes over earlier elements
with strictly greater key and sits before the first earlier element whose
key is not greater, so equal keys keep their input order — the observable
behaviour of Python's stable `sorted(…, reverse=True)`. -/
def insertDesc (x : Attrs) : List Attrs → List Attrs
  | [] => [x]
  | y :: ys => if finalScoreKey x < finalScoreKey y then y :: insertDesc x ys
               else x :: y :: ys

/-- Stable sort by `final_score` descending. -/
def sortDesc (l : List Attrs) : List Attrs := l.foldr insertDesc []

/-- `StockScorer.score_and_rank`: score every stock, sort stably by score
descending, return the top `MAX_STOCKS_TO_SELECT`. -/
def score_and_rank (filtered_stocks : List Attrs) : List Attrs :=
  if filtered_stocks.isEmpty then []
  else (sortDesc (scoreStocks filtered_stocks)).take MAX_STOCKS_TO_SELECT

/-- Descending order by `final_score` (first argument ranks at least as
high as the second). -/
def scoreGE (a b : Attrs) : Prop := finalScoreKey b ≤ finalScoreKey a

/-! ## Trade setup (`trade_setup.TradeSetupCalculator.calculate_setup`) -/

/-- True-range sequence of an intraday frame (first candle: high − low;
later candles also consider the previous close). -/
def trueRanges (rows : List IRow) : List ℚ :=
  match rows with
  | [] => []
  | first :: _ =>
    (first.high - first.low) ::
      (rows.zip rows.tail).map (fun p =>
        max (p.2.high - p.2.low) (max |p.2.high - p.1.close| |p.2.low - p.1.close|))

/-- Wilder smoothing tail: `v = (prev*(period-1) + tr) / period`. -/
def rmaFrom (seed period : ℚ) : List ℚ → List ℚ
  | [] => []
  | t :: rest =>
    let v := (seed * (period - 1) + t) / period
    v :: rmaFrom v period rest

/-- Modelled from the spec: `pandas_ta.atr` is part of the external
indicator library ("an external indicator library exposing pure functions
over a candle series"), not repository code. We model its default
(Wilder/RMA) average true range: the first `period - 1` values are
unavailable, the value at index `period - 1` is the mean of the first
`period` true ranges, and each later value applies Wilder smoothing. -/
def calculate_atr (rows : List IRow) (period : ℕ) : List (Option ℚ) :=
  let trs := trueRanges rows
  if trs.length < period ∨ period = 0 then trs.map (fun _ => none)
  else
    let seed := (trs.take period).sum / (period : ℚ)
    (List.replicate (period - 1) (none : Option ℚ)) ++ [some seed]
      ++ (rmaFrom seed (period : ℚ) (trs.drop period)).map some

/-- The swing-low stop of `calculate_setup`: 0.1% below the 10-candle
swing low. -/
def stopSwingOf (intraday_df : List IRow) : ℚ :=
  find_swing_low intraday_df 10 - find_swing_low intraday_df 10 * (1/1000)

/-- The `atr_value` of `calculate_setup`: the last 15-min ATR when the
series is nonempty and the value is not NaN, else 0. -/
def atrValue (intraday_df : List IRow) : ℚ :=
  match ((calculate_atr intraday_df 14).getLast?).getD none with
  | some v => v
  | none => 0

/-- `TradeSetupCalculator.calculate_setup`: derive entry/stop/target
levels from the intraday frame. `daily_df` is accepted but unused, as in
the source. Returns `none` ("insufficient data") on a short frame,
missing entry EMAs, or no viable stop. -/
def calculate_setup (intraday_df : List IRow) (_daily_df : List DailyRow)
    (risk_reward : ℚ := 6/5) (atr_multiplier : ℚ := 7/10) : Option Attrs :=
  if intraday_df.isEmpty || decide (intraday_df.length < 20) then none
  else
    let latest := (intraday_df.getLast?).getD default
    let ltp := latest.close
    match latest.ema_9, latest.ema_20_intraday with
    | some ema9, some ema20_intraday =>
      -- Option 1: below swing low
      let swing_low := find_swing_low intraday_df 10
      let stop_swing := stopSwingOf intraday_df
      -- Option 2: ATR-based (15-min ATR)
      let atr_value := atrValue intraday_df
      let stop_atr : Option ℚ :=
        if atr_value > 0 then some (ema9 - atr_value * atr_multiplier) else none
      let atrTruthy : Bool := match stop_atr with | some v => decide (v ≠ 0) | none => false
      let swingTruthy : Bool := decide (stop_swing ≠ 0)
      let chosen : Option (ℚ × String) :=
        if atrTruthy && swingTruthy then
          let sl := max stop_swing (stop_atr.getD 0)
          some (sl, if sl = stop_swing then "swing_low" else "atr_based")
        else if swingTruthy then some (stop_swing, "swing_low")
        else if atrTruthy then some (stop_atr.getD 0, "atr_based")
        else none
      match chosen with
      | none => none
      | some sm =>
        let stop_loss := sm.1
        let risk_ema9 := ema9 - stop_loss
        let target_ema9 : Option ℚ :=
          if risk_ema9 > 0 then some (ema9 + risk_ema9 * risk_reward) else none
        let risk_ema20 := ema20_intraday - stop_loss
        let target_ema20 : Option ℚ :=
          if risk_ema20 > 0 then some (ema20_intraday + risk_ema20 * risk_reward) else none
        some [("ltp", .num ltp), ("ema9", .num ema9), ("ema20", .num ema20_intraday),
              ("stop_loss", .num stop_loss), ("stop_method", .str sm.2),
              ("swing_low", .num swing_low), ("atr_15min", .num atr_value),
              ("target_ema9", ofONull target_ema9), ("target_ema20", ofONull target_ema20),
              ("risk_ema9", .num risk_ema9), ("risk_ema20", .num risk_ema20),
              ("risk_reward_ratio", .num risk_reward)]
    | _, _ => none

/-! ## Universe scan (`stock_selector.main`, filtering loop)

The per-symbol loop (production mode) calls `filter_stock` with no
per-symbol exception handler; the only handler is the `try/except` around
the whole of `main`, which prints the error and calls `sys.exit(1)`. -/

/-- Outcome of the scan: a completed ranking, or an abort via the
run-level exception handler. -/
inductive RunOutcome where
  | completed (ranked : List Attrs)
  | aborted (err : String)

def RunOutcome.isAborted : RunOutcome → Bool
  | .aborted _ => true
  | _ => false

/-- The filtering for-loop over the symbol universe. `evalSym` abstracts
one symbol's evaluation (filter stages; `Except.error` models a raised
exception). The loop body has no try/except, so an exception propagates
and the remaining symbols are never evaluated. -/
def filterLoop (evalSym : String → Except String (Bool × Attrs)) :
    List String → Except String (List Attrs)
  | [] => .ok []
  | s :: rest =>
    match evalSym s with
    | .error e => .error e
    | .ok pr =>
      match filterLoop evalSym rest with
      | .error e => .error e
      | .ok acc => .ok (if pr.1 then pr.2 :: acc else acc)

/-- The scan phase of `main`: run the filter loop, then score and rank;
an uncaught exception reaches the run-level handler and aborts the run. -/
def mainScan (evalSym : String → Except String (Bool × Attrs))
    (symbols : List String) : RunOutcome :=
  match filterLoop evalSym symbols with
  | .ok filtered_stocks => .completed (score_and_rank filtered_stocks)
  | .error e => .aborted e

/-! ## Concrete frames used by the witnesses and counterexamples -/

/-- An intraday candle inside the 9:30–10:00 window that satisfies every
intraday check but whose 20-period volume average is NaN. -/
def volAvgNanRow (m : ℕ) : IRow :=
  { minutes := m, open_ := 10, high := 21/2, low := 10, close := 21/2, volume := 100,
    vwap := some 9, volume_avg_20 := none, ema_9 := none, ema_20_intraday := none }

/-- Two-candle intraday frame whose volume average is NaN at the candle
under test. -/
def volAvgNanDf : List IRow := [volAvgNanRow 570, volAvgNanRow 585]

/-- A daily candle passing the trend stages (close above all EMAs, EMAs
aligned) whose ADX is NaN. -/
def c3base : DailyRow :=
  { open_ := 2, high := 2, low := 1, close := 2, volume := 100,
    ema_20 := some 1, ema_50 := some (mkRat 6 5), ema_200 := some 1,
    rsi := some 50, adx := none, atr := none }

/-- `c3base` with a chosen EMA20 value (to give the slope fit a positive
slope over the last five candles). -/
def c3slope (e : ℚ) : DailyRow := { c3base with ema_20 := some e }

/-- A 200-candle daily frame that passes stages 0–4 and reaches the ADX
stage with a NaN ADX. -/
def c3df : List DailyRow :=
  List.replicate 195 c3base
    ++ [c3slope (mkRat 11 10), c3slope (mkRat 12 10), c3slope (mkRat 13 10),
        c3slope (mkRat 14 10), c3slope (mkRat 15 10)]

def ctxC3 : DailyCtx := ⟨c3df, []⟩

/-- An intraday candle with constant unit range (so the 15-min ATR is
exactly 1) carrying entry EMAs 10.4 and 10.3. -/
def c8row : IRow :=
  { minutes := 600, open_ := 10, high := 11, low := 10, close := mkRat 21 2, volume := 100,
    vwap := none, volume_avg_20 := none,
    ema_9 := some (mkRat 52 5), ema_20_intraday := some (mkRat 103 10) }

/-- Twenty identical candles: enough history for a trade setup. -/
def c8df : List IRow := List.replicate 20 c8row

/-- The trade setup the calculator derives from `c8df` (swing low 10,
swing stop 9.99, ATR stop 10.4 − 0.7 = 9.7, so the swing stop wins). -/
def c8setup : Attrs := (calculate_setup c8df []).getD []

/-- A weight profile violating the "must sum to 100" comment: the swing
profile with trend weight 15 instead of 25, so the weights sum to 90. -/
def badWeights : ScoringWeights := { SCORING_WEIGHTS with trend_strength := 15 }

/-- Is the per-symbol evaluation exception-free? -/
def isOkE (e : Except String (Bool × Attrs)) : Bool :=
  match e with
  | .ok _ => true
  | .error _ => false

/-- A per-symbol evaluation in which one symbol raises an unexpected
exception and every other symbol passes the filters. -/
def evalBoom : String → Except String (Bool × Attrs) := fun sym =>
  if sym = "ADANIENT" then .error "boom" else .ok (true, [("symbol", .str sym)])

/-! ## Helper lemmas -/

theorem pyMin_some (a x : ℚ) : pyMin a (some x) = min a x := by
  have h0 : pyMin a (some x) = if x < a then x else a := rfl
  rw [h0]
  split_ifs with h
  · exact (min_eq_right h.le).symm
  · exact (min_eq_left (le_of_not_gt h)).symm

theorem pyMax_some (a x : ℚ) : pyMax a (some x) = max a x := by
  have h0 : pyMax a (some x) = if x > a then x else a := rfl
  rw [h0]
  split_ifs with h
  · exact (max_eq_right h.le).symm
  · exact (max_eq_left (le_of_not_gt h)).symm

theorem pyMin_none (a : ℚ) : pyMin a none = a := rfl

theorem pyMax_none (a : ℚ) : pyMax a none = a := rfl

theorem normalize_some (v min_val max_val : ℚ) (h : max_val ≠ min_val) :
    normalize_to_range (some v) min_val max_val
      = max 0 (min 100 ((v - min_val) / (max_val - min_val) * 100)) := by
  unfold normalize_to_range
  rw [if_neg h]
  show pyMax 0 (some (pyMin 100 (some ((v - min_val) / (max_val - min_val) * 100)))) = _
  rw [pyMin_some, pyMax_some]

theorem normalize_mem (v : Option ℚ) (a b : ℚ) :
    0 ≤ normalize_to_range v a b ∧ normalize_to_range v a b ≤ 100 := by
  unfold normalize_to_range
  split_ifs with h
  · norm_num
  · cases v with
    | none =>
      show (0:ℚ) ≤ pyMax 0 (some (pyMin 100 none)) ∧ pyMax 0 (some (pyMin 100 none)) ≤ 100
      rw [pyMin_none, pyMax_some]
      exact ⟨le_max_left 0 _, max_le (by norm_num) (by norm_num)⟩
    | some x =>
      show (0:ℚ) ≤ pyMax 0 (some (pyMin 100 (some ((x - a) / (b - a) * 100))))
        ∧ pyMax 0 (some (pyMin 100 (some ((x - a) / (b - a) * 100)))) ≤ 100
      rw [pyMin_some, pyMax_some]
      exact ⟨le_max_left 0 _, max_le (by norm_num) (min_le_left _ _)⟩

theorem normalize_nonneg (v : Option ℚ) (a b : ℚ) : 0 ≤ normalize_to_range v a b :=
  (normalize_mem v a b).1

theorem normalize_le (v : Option ℚ) (a b : ℚ) : normalize_to_range v a b ≤ 100 :=
  (normalize_mem v a b).2

/-! Per-factor range lemmas for the composite score. -/

theorem trend_score_mem (fr : Attrs) :
    0 ≤ calculate_trend_score fr ∧ calculate_trend_score fr ≤ 100 := by
  simp only [calculate_trend_score]
  obtain ⟨h1, h2⟩ := normalize_mem (fr.getNum "adx" 25) 25 50
  obtain ⟨h3, h4⟩ := normalize_mem ((fr.getNum "ema20_slope" 0).map (fun x => |x|)) 0 5
  constructor <;> nlinarith

theorem rsi_score_mem (fr : Attrs) :
    0 ≤ calculate_rsi_score fr ∧ calculate_rsi_score fr ≤ 100 := by
  simp only [calculate_rsi_score]
  obtain ⟨h1, h2⟩ := normalize_mem (fr.getNum "rsi" 50) 40 50
  obtain ⟨h3, h4⟩ := normalize_mem (fr.getNum "rsi" 50) 60 65
  split_ifs <;> constructor <;> nlinarith

theorem rs_score_mem (fr : Attrs) :
    0 ≤ calculate_relative_strength_score fr ∧ calculate_relative_strength_score fr ≤ 100 :=
  normalize_mem _ _ _

theorem volume_score_mem (fr : Attrs) :
    0 ≤ calculate_volume_score fr ∧ calculate_volume_score fr ≤ 100 :=
  normalize_mem _ _ _

theorem atr_score_mem (fr : Attrs) :
    0 ≤ calculate_atr_score fr ∧ calculate_atr_score fr ≤ 100 :=
  normalize_mem _ _ _

theorem weekly_score_mem (fr : Attrs) :
    0 ≤ calculate_weekly_score fr ∧ calculate_weekly_score fr ≤ 100 := by
  unfold calculate_weekly_score
  rcases fr.get "weekly_suitable" with _ | v
  · norm_num
  · cases v with
    | bool b => cases b <;> norm_num
    | num x => norm_num
    | nan => norm_num
    | str s => norm_num
    | null => norm_num
    | dict d => norm_num
    | reasonV r => norm_num

theorem price_action_score_mem (fr : Attrs) :
    0 ≤ calculate_price_action_score fr ∧ calculate_price_action_score fr ≤ 100 := by
  simp only [calculate_price_action_score]
  obtain ⟨h1, h2⟩ := normalize_mem (fr.getNum "higher_lows_count" 0) 3 5
  constructor
  · apply le_min (by norm_num)
    split_ifs <;> nlinarith
  · exact min_le_left _ _

theorem pyMax_zero_nonneg (x : Option ℚ) : 0 ≤ pyMax 0 x := by
  cases x with
  | none => rw [pyMax_none]
  | some y => rw [pyMax_some]; exact le_max_left 0 y

theorem trade_quality_score_mem (fr : Attrs) :
    0 ≤ calculate_trade_quality_score fr ∧ calculate_trade_quality_score fr ≤ 100 := by
  simp only [calculate_trade_quality_score]
  split_ifs with h hA hB
  · norm_num
  · obtain ⟨h1, h2⟩ := normalize_mem
      ((((fr.get "trade_quality").getD (.dict [])).asDict).getNum "risk_reward" (3/2)) (3/2) 3
    refine ⟨le_min (by norm_num) (by nlinarith), min_le_left _ _⟩
  · obtain ⟨h1, h2⟩ := normalize_mem
      ((((fr.get "trade_quality").getD (.dict [])).asDict).getNum "risk_reward" (3/2)) (3/2) 3
    refine ⟨le_min (by norm_num) ?_, min_le_left _ _⟩
    have hp := pyMax_zero_nonneg (Option.map (fun d => 50 - |d - 1| * 25)
      ((((fr.get "trade_quality").getD (.dict [])).asDict.get "stop_distance_pct").bind AttrVal.asNum))
    nlinarith
  · obtain ⟨h1, h2⟩ := normalize_mem
      ((((fr.get "trade_quality").getD (.dict [])).asDict).getNum "risk_reward" (3/2)) (3/2) 3
    refine ⟨le_min (by norm_num) (by nlinarith), min_le_left _ _⟩

theorem roundHalfEven_mem (x lo hi : ℚ) (hlo : lo ≤ x) (hhi : x ≤ hi) :
    (lo - 1 : ℚ) < (roundHalfEven x : ℚ) ∧ (roundHalfEven x : ℚ) < hi + 1 := by
  simp only [roundHalfEven]
  have hfl : (⌊x⌋ : ℚ) ≤ x := Int.floor_le x
  have hfl2 : x < (⌊x⌋ : ℚ) + 1 := Int.lt_floor_add_one x
  split_ifs <;> constructor <;> push_cast <;> linarith

theorem round2_mem (x : ℚ) (h0 : 0 ≤ x) (h1 : x ≤ 100) :
    0 ≤ round2 x ∧ round2 x ≤ 100 := by
  unfold round2
  obtain ⟨ha, hb⟩ := roundHalfEven_mem (x * 100) 0 10000 (by linarith) (by linarith)
  have ha1 : (-1 : ℤ) < roundHalfEven (x * 100) := by
    exact_mod_cast (by push_cast; linarith : ((-1 : ℤ) : ℚ) < (roundHalfEven (x * 100) : ℚ))
  have hb1 : roundHalfEven (x * 100) < (10001 : ℤ) := by
    exact_mod_cast (by push_cast; linarith : ((roundHalfEven (x * 100) : ℚ)) < ((10001 : ℤ) : ℚ))
  have ha2 : (0:ℚ) ≤ (roundHalfEven (x * 100) : ℚ) := by exact_mod_cast (by omega : (0:ℤ) ≤ roundHalfEven (x * 100))
  have hb2 : (roundHalfEven (x * 100) : ℚ) ≤ 10000 := by exact_mod_cast (by omega : roundHalfEven (x * 100) ≤ (10000:ℤ))
  constructor
  · exact div_nonneg ha2 (by norm_num)
  · rw [div_le_iff₀ (by norm_num : (0:ℚ) < 100)]
    linarith

theorem weightedTotal_mem (fr : Attrs) :
    0 ≤ weightedTotal SCORING_WEIGHTS fr ∧ weightedTotal SCORING_WEIGHTS fr ≤ 100 := by
  obtain ⟨a1, a2⟩ := trend_score_mem fr
  obtain ⟨b1, b2⟩ := rsi_score_mem fr
  obtain ⟨c1, c2⟩ := rs_score_mem fr
  obtain ⟨d1, d2⟩ := volume_score_mem fr
  obtain ⟨e1, e2⟩ := atr_score_mem fr
  obtain ⟨f1, f2⟩ := weekly_score_mem fr
  obtain ⟨g1, g2⟩ := price_action_score_mem fr
  obtain ⟨i1, i2⟩ := trade_quality_score_mem fr
  have hw : weightedTotal SCORING_WEIGHTS fr
      = calculate_trend_score fr * 25 / 100 + calculate_rsi_score fr * 15 / 100
        + calculate_relative_strength_score fr * 15 / 100 + calculate_volume_score fr * 10 / 100
        + calculate_atr_score fr * 5 / 100 + calculate_weekly_score fr * 10 / 100
        + calculate_price_action_score fr * 10 / 100 + calculate_trade_quality_score fr * 10 / 100 := rfl
  rw [hw]
  constructor <;> linarith

/-- C4: for every attribute dictionary (any mapping of filter results,
including missing or out-of-range values), each of the eight factor
scores lies in [0,100], and `calculate_total_score` returns the weighted
sum Σ(factor_score × weight/100), rounded to 2 decimals, which lies in
[0,100]. -/
theorem C4_composite_score (fr : Attrs) :
    (0 ≤ calculate_trend_score fr ∧ calculate_trend_score fr ≤ 100)
    ∧ (0 ≤ calculate_rsi_score fr ∧ calculate_rsi_score fr ≤ 100)
    ∧ (0 ≤ calculate_relative_strength_score fr ∧ calculate_relative_strength_score fr ≤ 100)
    ∧ (0 ≤ calculate_volume_score fr ∧ calculate_volume_score fr ≤ 100)
    ∧ (0 ≤ calculate_atr_score fr ∧ calculate_atr_score fr ≤ 100)
    ∧ (0 ≤ calculate_weekly_score fr ∧ calculate_weekly_score fr ≤ 100)
    ∧ (0 ≤ calculate_price_action_score fr ∧ calculate_price_action_score fr ≤ 100)
    ∧ (0 ≤ calculate_trade_quality_score fr ∧ calculate_trade_quality_score fr ≤ 100)
    ∧ calculate_total_score fr = round2 (weightedTotal SCORING_WEIGHTS fr)
    ∧ (0 ≤ calculate_total_score fr ∧ calculate_total_score fr ≤ 100) := by
  obtain ⟨hw1, hw2⟩ := weightedTotal_mem fr
  exact ⟨trend_score_mem fr, rsi_score_mem fr, rs_score_mem fr, volume_score_mem fr,
    atr_score_mem fr, weekly_score_mem fr, price_action_score_mem fr, trade_quality_score_mem fr,
    rfl, round2_mem _ hw1 hw2⟩

/-- C5: for `min_val < max_val`, `normalize_to_range` is monotone
non-decreasing in the value, stays in [0,100], maps the anchors to 0 and
100, and clamps out-of-range inputs instead of extrapolating. -/
theorem C5_normalize_props (v w mn mx : ℚ) (h : mn < mx) :
    (v ≤ w → normalize_to_range (some v) mn mx ≤ normalize_to_range (some w) mn mx)
    ∧ (0 ≤ normalize_to_range (some v) mn mx ∧ normalize_to_range (some v) mn mx ≤ 100)
    ∧ normalize_to_range (some mn) mn mx = 0
    ∧ normalize_to_range (some mx) mn mx = 100
    ∧ (v ≤ mn → normalize_to_range (some v) mn mx = 0)
    ∧ (mx ≤ v → normalize_to_range (some v) mn mx = 100) := by
  have hne : mx ≠ mn := ne_of_gt h
  have hd : (0:ℚ) < mx - mn := by linarith
  refine ⟨?_, normalize_mem _ _ _, ?_, ?_, ?_, ?_⟩
  · intro hvw
    rw [normalize_some _ _ _ hne, normalize_some _ _ _ hne]
    have hab : (v - mn) / (mx - mn) * 100 ≤ (w - mn) / (mx - mn) * 100 := by
      apply mul_le_mul_of_nonneg_right _ (by norm_num : (0:ℚ) ≤ 100)
      exact (div_le_div_iff_of_pos_right hd).mpr (by linarith)
    exact max_le_max le_rfl (min_le_min le_rfl hab)
  · rw [normalize_some _ _ _ hne, sub_self, zero_div, zero_mul]
    rw [min_eq_right (by norm_num : (0:ℚ) ≤ 100), max_self]
  · rw [normalize_some _ _ _ hne, div_self (sub_ne_zero.mpr hne), one_mul]
    rw [min_self, max_eq_right (by norm_num : (0:ℚ) ≤ 100)]
  · intro hv
    rw [normalize_some _ _ _ hne]
    have ha : (v - mn) / (mx - mn) * 100 ≤ 0 := by
      apply mul_nonpos_of_nonpos_of_nonneg _ (by norm_num : (0:ℚ) ≤ 100)
      exact div_nonpos_of_nonpos_of_nonneg (by linarith) hd.le
    rw [min_eq_right (by linarith), max_eq_left (by linarith)]
  · intro hv
    rw [normalize_some _ _ _ hne]
    have ha : (100:ℚ) ≤ (v - mn) / (mx - mn) * 100 := by
      have h1 : (1:ℚ) ≤ (v - mn) / (mx - mn) := (one_le_div hd).mpr (by linarith)
      nlinarith
    rw [min_eq_left ha, max_eq_right (by norm_num : (0:ℚ) ≤ 100)]

/-- C5 witness: instantiation of the normalization properties, for
anchors 0 < 10 with the values 3 and 7. -/
theorem C5_normalize_props_w :
    ((3:ℚ) ≤ 7 → normalize_to_range (some 3) 0 10 ≤ normalize_to_range (some 7) 0 10)
    ∧ (0 ≤ normalize_to_range (some 3) 0 10 ∧ normalize_to_range (some 3) 0 10 ≤ 100)
    ∧ normalize_to_range (some (0:ℚ)) 0 10 = 0
    ∧ normalize_to_range (some (10:ℚ)) 0 10 = 100
    ∧ ((3:ℚ) ≤ 0 → normalize_to_range (some 3) 0 10 = 0)
    ∧ ((10:ℚ) ≤ 3 → normalize_to_range (some 3) 0 10 = 100) :=
  C5_normalize_props 3 7 0 10 (by norm_num)

/-! ## Short-circuit structure of the stage pipeline -/

theorem runStages_shortCircuit (stages : List DStage) (ctx : DailyCtx) (k : ℕ)
    (hk : k < stages.length)
    (hpass : ∀ j (hj : j < stages.length), j < k → (stages.get ⟨j, hj⟩).pred ctx = true)
    (hfail : (stages.get ⟨k, hk⟩).pred ctx = false) :
    (∀ acc : Attrs, runStages stages ctx acc
      = (false, [("reason", .reasonV (stages.get ⟨k, hk⟩).reason)]))
    ∧ evalCount stages ctx = k + 1 := by
  induction stages generalizing k with
  | nil => exact absurd hk (Nat.not_lt_zero k)
  | cons s rest ih =>
    cases k with
    | zero =>
      have hf : s.pred ctx = false := hfail
      refine ⟨fun acc => ?_, ?_⟩
      · simp [runStages, hf]
      · simp [evalCount, hf]
    | succ k =>
      have hs : s.pred ctx = true := hpass 0 (Nat.succ_pos _) (Nat.succ_pos _)
      have ih2 := ih k (Nat.lt_of_succ_lt_succ hk)
        (fun j hj hjk => hpass (j + 1) (Nat.succ_lt_succ hj) (Nat.succ_lt_succ hjk)) hfail
      refine ⟨fun acc => ?_, ?_⟩
      · show (if s.pred ctx then runStages rest ctx (acc ++ s.attrs ctx)
            else (false, [("reason", .reasonV s.reason)])) = _
        rw [hs, if_pos rfl]
        exact ih2.1 _
      · show 1 + (if s.pred ctx then evalCount rest ctx else 0) = k + 1 + 1
        rw [hs, if_pos rfl, ih2.2]
        omega

theorem runStages_false (stages : List DStage) (ctx : DailyCtx) (acc : Attrs)
    (h : (runStages stages ctx acc).1 = false) :
    ∃ r : FailReason, runStages stages ctx acc = (false, [("reason", .reasonV r)]) := by
  induction stages generalizing acc with
  | nil => exact absurd h (by simp [runStages])
  | cons s rest ih =>
    by_cases hs : s.pred ctx = true
    · have he : runStages (s :: rest) ctx acc = runStages rest ctx (acc ++ s.attrs ctx) := by
        show (if s.pred ctx then _ else _) = _
        rw [hs, if_pos rfl]
      rw [he] at h ⊢
      exact ih _ h
    · refine ⟨s.reason, ?_⟩
      show (if s.pred ctx then _ else _) = _
      rw [Bool.not_eq_true] at hs
      rw [hs]
      simp

theorem daily_fail_shape (ctx : DailyCtx) (h : (apply_daily_filters ctx).1 = false) :
    ∃ r : FailReason, apply_daily_filters ctx = (false, [("reason", .reasonV r)]) := by
  unfold apply_daily_filters at h ⊢
  by_cases hr : (runStages dailyStages ctx []).1 = true
  · rw [if_pos hr] at h
    exact absurd h (by simp)
  · rw [Bool.not_eq_true] at hr
    rw [if_neg (by rw [hr]; exact Bool.false_ne_true)] at h ⊢
    exact runStages_false _ _ _ hr

/-- C1: the filter pipeline short-circuits. If every stage before `k`
passes and stage `k`'s predicate fails, `apply_daily_filters` returns
`Fail` carrying exactly stage `k`'s reason (and no other attributes), and
exactly `k + 1` stage predicates are evaluated. In `filter_stock`, a
daily Fail produces a "daily"-tagged rejection whose value is independent
of the weekly and intraday inputs (neither later phase runs), and a
weekly Fail produces a "weekly"-tagged rejection independent of the
intraday input. -/
theorem C1_short_circuit :
    (∀ (ctx : DailyCtx) (k : ℕ) (hk : k < dailyStages.length),
      (∀ j (hj : j < dailyStages.length), j < k → (dailyStages.get ⟨j, hj⟩).pred ctx = true) →
      (dailyStages.get ⟨k, hk⟩).pred ctx = false →
      apply_daily_filters ctx = (false, [("reason", .reasonV (dailyStages.get ⟨k, hk⟩).reason)])
        ∧ evalCount dailyStages ctx = k + 1
        ∧ ∀ kv ∈ (apply_daily_filters ctx).2, kv.1 = "reason")
    ∧ (∀ (symbol : String) (ctx : DailyCtx) (i1 i2 : List IRow)
        (w1 w2 : Option (List WeeklyRow)),
        (apply_daily_filters ctx).1 = false →
        filter_stock symbol ctx i1 w1
            = (false, [("stage", .str "daily")] ++ (apply_daily_filters ctx).2)
          ∧ filter_stock symbol ctx i1 w1 = filter_stock symbol ctx i2 w2)
    ∧ (∀ (symbol : String) (ctx : DailyCtx) (i1 i2 : List IRow) (wdf : List WeeklyRow),
        (apply_daily_filters ctx).1 = true →
        wdf.isEmpty = false →
        (((check_weekly_trend wdf).get "suitable_for_swing").getD (.bool false)).truthy = false →
        filter_stock symbol ctx i1 (some wdf)
            = (false, [("stage", .str "weekly"), ("reason", .reasonV .weeklyNotSuitable)]
                ++ ((apply_daily_filters ctx).2
                  ++ [("weekly_trend", ((check_weekly_trend wdf).get "weekly_trend").getD .null),
                      ("weekly_suitable",
                        ((check_weekly_trend wdf).get "suitable_for_swing").getD (.bool false))]))
          ∧ filter_stock symbol ctx i1 (some wdf) = filter_stock symbol ctx i2 (some wdf)) := by
  refine ⟨?_, ?_, ?_⟩
  · intro ctx k hk hpass hfail
    obtain ⟨h1, h2⟩ := runStages_shortCircuit dailyStages ctx k hk hpass hfail
    have hd : apply_daily_filters ctx
        = (false, [("reason", .reasonV (dailyStages.get ⟨k, hk⟩).reason)]) := by
      simp [apply_daily_filters, h1]
    refine ⟨hd, h2, ?_⟩
    rw [hd]
    intro kv hkv
    simp at hkv
    rw [hkv]
  · intro symbol ctx i1 i2 w1 w2 hfalse
    obtain ⟨r, hr⟩ := daily_fail_shape ctx hfalse
    constructor
    · simp only [filter_stock, hr]
      simp
    · simp only [filter_stock, hr]
      simp
  · intro symbol ctx i1 i2 wdf htrue hne hgate
    rcases hP : apply_daily_filters ctx with ⟨b, d⟩
    rw [hP] at htrue
    simp only at htrue
    subst htrue
    constructor
    · simp only [filter_stock, hP]
      simp [hne, hgate]
    · simp only [filter_stock, hP]
      simp [hne, hgate]

/-- C1 witness: for the empty daily frame, stage 0 (the data-sufficiency
check) fails, the pipeline reports "Insufficient data" having evaluated
exactly one stage, and `filter_stock` rejects at the "daily" stage
independently of the weekly and intraday inputs. -/
theorem C1_short_circuit_w :
    (stageData.pred ⟨[], []⟩ = false)
    ∧ (apply_daily_filters ⟨[], []⟩ = (false, [("reason", .reasonV .insufficientData)])
        ∧ evalCount dailyStages ⟨[], []⟩ = 0 + 1
        ∧ ∀ kv ∈ (apply_daily_filters ⟨[], []⟩).2, kv.1 = "reason")
    ∧ (filter_stock "RELIANCE" ⟨[], []⟩ [] none
          = (false, [("stage", .str "daily")] ++ (apply_daily_filters ⟨[], []⟩).2)
        ∧ filter_stock "RELIANCE" ⟨[], []⟩ [] none
          = filter_stock "RELIANCE" ⟨[], []⟩ [default] (some [])) := by
  have hf : stageData.pred ⟨[], []⟩ = false := by decide
  refine ⟨hf, ?_, ?_⟩
  · exact C1_short_circuit.1 ⟨[], []⟩ 0 (by norm_num [dailyStages])
      (fun j hj hj0 => absurd hj0 (Nat.not_lt_zero j)) hf
  · exact C1_short_circuit.2.1 "RELIANCE" ⟨[], []⟩ [] [default] none (some []) (by decide)

/-! ## Missing-data (NaN) behaviour of the stages -/

/-- C3 counterexample: the claim says a missing/NaN intraday 20-period
volume average makes the stage Fail; in the code that check is skipped
("If no volume average, skip this check") and the stage PASSES, recording
`volume_confirmed = True`. -/
theorem C3_cex :
    (((intradayWindow volAvgNanDf).getLast?).getD default).volume_avg_20 = none
    ∧ (apply_intraday_filters volAvgNanDf).1 = true
    ∧ (apply_intraday_filters volAvgNanDf).2.get "volume_confirmed" = some (.bool true) := by
  exact ⟨rfl, by with_unfolding_all rfl, by with_unfolding_all rfl⟩

/-- C3 (amended): the stages fail closed on NaN for the daily EMAs, ADX
and RSI and for the intraday VWAP — each such NaN, with the earlier
stages passing, yields that stage's `Fail` reason rather than an
exception or a pass — but the intraday volume stage is fail-open: a NaN
20-period volume average skips the volume check and the stage passes
with `volume_confirmed = True`. -/
theorem C3_nan_gating :
    (∀ ctx : DailyCtx, stageData.pred ctx = true → (latestD ctx).ema_200 = none →
      apply_daily_filters ctx = (false, [("reason", .reasonV .priceNotAbove200EMA)]))
    ∧ (∀ ctx : DailyCtx, stageData.pred ctx = true → stageAbove200EMA.pred ctx = true →
        ((latestD ctx).ema_20 = none ∨ (latestD ctx).ema_50 = none) →
        apply_daily_filters ctx = (false, [("reason", .reasonV .emaAlignmentFailed)]))
    ∧ (∀ ctx : DailyCtx, stageData.pred ctx = true → stageAbove200EMA.pred ctx = true →
        stageEmaAlignment.pred ctx = true → stageBullishRegime.pred ctx = true →
        stageEmaSlope.pred ctx = true → (latestD ctx).adx = none →
        apply_daily_filters ctx = (false, [("reason", .reasonV .adxBelowMin)]))
    ∧ (∀ ctx : DailyCtx, stageData.pred ctx = true → stageAbove200EMA.pred ctx = true →
        stageEmaAlignment.pred ctx = true → stageBullishRegime.pred ctx = true →
        stageEmaSlope.pred ctx = true → stageADX.pred ctx = true → (latestD ctx).rsi = none →
        apply_daily_filters ctx = (false, [("reason", .reasonV .rsiNotInRange)]))
    ∧ (∀ df : List IRow, df.isEmpty = false →
        ((intradayWindow df).length < FILTER_THRESHOLDS.VWAP_CANDLES_TO_CHECK) = False →
        (((intradayWindow df).getLast?).getD default).vwap = none →
        apply_intraday_filters df = (false, [("reason", .reasonV .priceNotAboveVWAP)]))
    ∧ (∀ (df : List IRow) (c : IRow) (rest : List IRow), df.isEmpty = false →
        intradayWindow df = c :: rest →
        ((c :: rest).length < FILTER_THRESHOLDS.VWAP_CANDLES_TO_CHECK) = False →
        ((((c :: rest).getLast?).getD default).vwap.isNone
          || oLe (some (((c :: rest).getLast?).getD default).close)
               (((c :: rest).getLast?).getD default).vwap) = false →
        c.vwap = none →
        apply_intraday_filters df = (false, [("reason", .reasonV (.candleDroppedBelowVWAP 1))]))
    ∧ (∀ df : List IRow, df.isEmpty = false →
        ((intradayWindow df).length < FILTER_THRESHOLDS.VWAP_CANDLES_TO_CHECK) = False →
        ((((intradayWindow df).getLast?).getD default).vwap.isNone
          || oLe (some ((((intradayWindow df).getLast?).getD default)).close)
               (((intradayWindow df).getLast?).getD default).vwap) = false →
        vwapHoldViolation ((intradayWindow df).take FILTER_THRESHOLDS.VWAP_CANDLES_TO_CHECK) 0 = none →
        wickViolation ((intradayWindow df).take FILTER_THRESHOLDS.VWAP_CANDLES_TO_CHECK) 0 = none →
        (((intradayWindow df).getLast?).getD default).volume_avg_20 = none →
        apply_intraday_filters df
          = (true, [("above_vwap", .bool true), ("vwap_hold", .bool true),
              ("no_large_wicks", .bool true), ("volume_confirmed", .bool true),
              ("passed", .bool true), ("intraday_bias", .str "bullish")])) := by
  have hfailAt : ∀ (ctx : DailyCtx) (k : ℕ) (hk : k < dailyStages.length),
      (∀ j (hj : j < dailyStages.length), j < k → (dailyStages.get ⟨j, hj⟩).pred ctx = true) →
      (dailyStages.get ⟨k, hk⟩).pred ctx = false →
      apply_daily_filters ctx = (false, [("reason", .reasonV (dailyStages.get ⟨k, hk⟩).reason)]) := by
    intro ctx k hk hpass hfail
    obtain ⟨h1, _⟩ := runStages_shortCircuit dailyStages ctx k hk hpass hfail
    simp [apply_daily_filters, h1]
  refine ⟨?_, ?_, ?_, ?_, ?_, ?_, ?_⟩
  · intro ctx h0 h200
    exact hfailAt ctx 1 (by norm_num [dailyStages])
      (fun j hj hlt => match j, hlt with
        | 0, _ => h0)
      (show stageAbove200EMA.pred ctx = false by simp [stageAbove200EMA, h200])
  · intro ctx h0 h1 hor
    refine hfailAt ctx 2 (by norm_num [dailyStages])
      (fun j hj hlt => match j, hlt with
        | 0, _ => h0
        | 1, _ => h1)
      (show stageEmaAlignment.pred ctx = false by
        rcases hor with h | h <;> simp [stageEmaAlignment, h])
  · intro ctx h0 h1 h2 h3 h4 hadx
    exact hfailAt ctx 5 (by norm_num [dailyStages])
      (fun j hj hlt => match j, hlt with
        | 0, _ => h0
        | 1, _ => h1
        | 2, _ => h2
        | 3, _ => h3
        | 4, _ => h4)
      (show stageADX.pred ctx = false by simp [stageADX, hadx])
  · intro ctx h0 h1 h2 h3 h4 h5 hrsi
    exact hfailAt ctx 6 (by norm_num [dailyStages])
      (fun j hj hlt => match j, hlt with
        | 0, _ => h0
        | 1, _ => h1
        | 2, _ => h2
        | 3, _ => h3
        | 4, _ => h4
        | 5, _ => h5)
      (show stageRSI.pred ctx = false by simp [stageRSI, hrsi])
  · intro df hne hwin hv
    simp [apply_intraday_filters, hne, hwin, hv]
  · intro df c rest hne hw hwin hvpass hcv
    simp only [apply_intraday_filters, hne, Bool.false_eq_true, if_false, hw]
    simp only [hwin]
    simp only [if_false]
    rw [if_neg (by rw [hvpass]; exact Bool.false_ne_true)]
    have hviol : vwapHoldViolation ((c :: rest).take FILTER_THRESHOLDS.VWAP_CANDLES_TO_CHECK) 0
        = some 1 := by
      show vwapHoldViolation (c :: rest.take 1) 0 = some 1
      show (if c.vwap.isNone || oLt (some c.low) c.vwap then some (0 + 1)
        else vwapHoldViolation (rest.take 1) (0 + 1)) = some 1
      rw [hcv]
      simp
    rw [hviol]
  · intro df hne hwin hvpass hhold hwick havg
    simp only [apply_intraday_filters, hne, Bool.false_eq_true, if_false]
    simp only [hwin, if_false]
    rw [if_neg (by rw [hvpass]; exact Bool.false_ne_true)]
    rw [hhold, hwick, havg]
    rfl

set_option maxRecDepth 8000 in
/-- C3 witness: on the concrete 200-candle frame the first five stages
pass, the ADX is NaN, and the pipeline fails closed with the ADX stage's
reason; on the concrete intraday frame the NaN volume average is skipped
and the stage passes. -/
theorem C3_nan_gating_w :
    stageData.pred ctxC3 = true
    ∧ stageAbove200EMA.pred ctxC3 = true
    ∧ stageEmaAlignment.pred ctxC3 = true
    ∧ stageBullishRegime.pred ctxC3 = true
    ∧ stageEmaSlope.pred ctxC3 = true
    ∧ (latestD ctxC3).adx = none
    ∧ apply_daily_filters ctxC3 = (false, [("reason", .reasonV .adxBelowMin)])
    ∧ volAvgNanDf.isEmpty = false
    ∧ (((intradayWindow volAvgNanDf).getLast?).getD default).volume_avg_20 = none
    ∧ apply_intraday_filters volAvgNanDf
        = (true, [("above_vwap", .bool true), ("vwap_hold", .bool true),
            ("no_large_wicks", .bool true), ("volume_confirmed", .bool true),
            ("passed", .bool true), ("intraday_bias", .str "bullish")]) := by
  have h0 : stageData.pred ctxC3 = true := by with_unfolding_all decide
  have h1 : stageAbove200EMA.pred ctxC3 = true := by with_unfolding_all decide
  have h2 : stageEmaAlignment.pred ctxC3 = true := by with_unfolding_all decide
  have h3 : stageBullishRegime.pred ctxC3 = true := by with_unfolding_all decide
  have h4 : stageEmaSlope.pred ctxC3 = true := by with_unfolding_all decide
  refine ⟨h0, h1, h2, h3, h4, rfl, C3_nan_gating.2.2.1 ctxC3 h0 h1 h2 h3 h4 rfl,
    rfl, rfl, ?_⟩
  exact C3_nan_gating.2.2.2.2.2.2 volAvgNanDf rfl
    (eq_false (by with_unfolding_all decide))
    (by with_unfolding_all decide)
    (by with_unfolding_all decide)
    (by with_unfolding_all decide)
    rfl

/-! ## Stable descending sort lemmas -/

theorem insertDesc_mem (x : Attrs) (l : List Attrs) (a : Attrs) :
    a ∈ insertDesc x l ↔ a = x ∨ a ∈ l := by
  induction l with
  | nil => simp [insertDesc]
  | cons y ys ih =>
    unfold insertDesc
    split_ifs with h
    · simp only [List.mem_cons, ih]
      tauto
    · exact List.mem_cons

theorem insertDesc_pairwise (x : Attrs) (l : List Attrs)
    (h : l.Pairwise scoreGE) : (insertDesc x l).Pairwise scoreGE := by
  induction l with
  | nil => simp [insertDesc]
  | cons y ys ih =>
    rcases List.pairwise_cons.mp h with ⟨hy, hys⟩
    unfold insertDesc
    split_ifs with hcmp
    · refine List.pairwise_cons.mpr ⟨?_, ih hys⟩
      intro a ha
      rcases (insertDesc_mem x ys a).mp ha with rfl | ha2
      · exact le_of_lt hcmp
      · exact hy a ha2
    · refine List.pairwise_cons.mpr ⟨?_, h⟩
      intro a ha
      rcases List.mem_cons.mp ha with rfl | ha2
      · exact le_of_not_gt (by simpa [scoreGE] using hcmp)
      · exact le_trans (hy a ha2) (le_of_not_gt hcmp)

theorem sortDesc_pairwise (l : List Attrs) : (sortDesc l).Pairwise scoreGE := by
  induction l with
  | nil => simp [sortDesc]
  | cons x xs ih => exact insertDesc_pairwise x (sortDesc xs) ih

theorem filter_insertDesc (x : Attrs) (l : List Attrs) (q : ℚ) :
    (insertDesc x l).filter (fun s => decide (finalScoreKey s = q))
      = if finalScoreKey x = q
        then x :: l.filter (fun s => decide (finalScoreKey s = q))
        else l.filter (fun s => decide (finalScoreKey s = q)) := by
  induction l with
  | nil =>
    show [x].filter _ = _
    rw [List.filter_cons]
    split_ifs with h1 h2 h2 <;> simp_all
  | cons y ys ih =>
    unfold insertDesc
    split_ifs with hcmp hxq
    · -- x passes over y (key x < key y); y cannot have key q when x does
      rw [List.filter_cons, List.filter_cons, ih, if_pos hxq]
      have hyq : ¬(finalScoreKey y = q) := by
        intro hyq
        rw [hxq, hyq] at hcmp
        exact lt_irrefl q hcmp
      rw [if_neg (by simpa using hyq), if_neg (by simpa using hyq)]
    · rw [List.filter_cons, List.filter_cons, ih, if_neg hxq]
    · -- x sits in front of y
      rename_i hxq2
      rw [List.filter_cons, if_pos (by simpa using hxq2), List.filter_cons]
    · rename_i hxq2
      rw [List.filter_cons, if_neg (by simpa using hxq2), List.filter_cons]

theorem sortDesc_filter (l : List Attrs) (q : ℚ) :
    (sortDesc l).filter (fun s => decide (finalScoreKey s = q))
      = l.filter (fun s => decide (finalScoreKey s = q)) := by
  induction l with
  | nil => rfl
  | cons x xs ih =>
    show (insertDesc x (sortDesc xs)).filter _ = _
    rw [filter_insertDesc, List.filter_cons]
    by_cases hxq : finalScoreKey x = q
    · rw [if_pos hxq, ih, if_pos (by simpa using hxq)]
    · rw [if_neg hxq, ih, if_neg (by simpa using hxq)]

/-- C6: `score_and_rank` returns at most `MAX_STOCKS_TO_SELECT = 3`
stocks, in non-increasing `final_score` order; the sort is stable: for
every score value, the tied stocks appear in the sorted list in exactly
their input order (so with a maximum of 1 the first tied input stock is
the one returned); and on a nonempty input the result is exactly the top
of the stably sorted scored list. -/
theorem C6_rank (stocks : List Attrs) :
    MAX_STOCKS_TO_SELECT = 3
    ∧ (score_and_rank stocks).length ≤ MAX_STOCKS_TO_SELECT
    ∧ (score_and_rank stocks).Pairwise scoreGE
    ∧ (∀ q : ℚ, (sortDesc (scoreStocks stocks)).filter (fun s => decide (finalScoreKey s = q))
        = (scoreStocks stocks).filter (fun s => decide (finalScoreKey s = q)))
    ∧ (stocks.isEmpty = false →
        score_and_rank stocks = (sortDesc (scoreStocks stocks)).take MAX_STOCKS_TO_SELECT) := by
  refine ⟨rfl, ?_, ?_, fun q => sortDesc_filter (scoreStocks stocks) q, ?_⟩
  · unfold score_and_rank
    split_ifs
    · simp
    · exact le_trans (List.length_take_le _ _) le_rfl
  · unfold score_and_rank
    split_ifs
    · simp
    · exact (sortDesc_pairwise (scoreStocks stocks)).sublist (List.take_sublist _ _)
  · intro hne
    unfold score_and_rank
    rw [if_neg (by rw [hne]; exact Bool.false_ne_true)]

/-- C6 witness: a two-stock universe with identical attribute dictionaries
(hence tied scores); the hypotheses of the ranking theorem are discharged
on it. -/
theorem C6_rank_w :
    MAX_STOCKS_TO_SELECT = 3
    ∧ (score_and_rank [[("symbol", AttrVal.str "A")], [("symbol", AttrVal.str "B")]]).length
        ≤ MAX_STOCKS_TO_SELECT
    ∧ (score_and_rank [[("symbol", AttrVal.str "A")], [("symbol", AttrVal.str "B")]]).Pairwise scoreGE
    ∧ score_and_rank [[("symbol", AttrVal.str "A")], [("symbol", AttrVal.str "B")]]
        = (sortDesc (scoreStocks [[("symbol", AttrVal.str "A")], [("symbol", AttrVal.str "B")]])).take
            MAX_STOCKS_TO_SELECT := by
  obtain ⟨h0, hl, hp, _, ht⟩ := C6_rank [[("symbol", AttrVal.str "A")], [("symbol", AttrVal.str "B")]]
  exact ⟨h0, hl, hp, ht rfl⟩

/-! ## Trade setup derivation -/

/-- C8: when both stop options are viable (positive ATR, both nonzero),
the derived stop-loss is the higher (tighter for a long) of the swing-low
stop and the volatility stop `ema9 − atr_multiplier × ATR`, and each
target is its entry level plus the corresponding risk times the
configured reward multiple. -/
theorem C8_stop_targets (idf : List IRow) (ddf : List DailyRow) (rr k : ℚ) (s : Attrs)
    (e9 e20 : ℚ)
    (hema9 : (((idf.getLast?).getD default)).ema_9 = some e9)
    (hema20 : (((idf.getLast?).getD default)).ema_20_intraday = some e20)
    (hs : calculate_setup idf ddf rr k = some s)
    (hatr : 0 < atrValue idf)
    (hsa : e9 - atrValue idf * k ≠ 0)
    (hsw : stopSwingOf idf ≠ 0) :
    s.get "stop_loss" = some (.num (max (stopSwingOf idf) (e9 - atrValue idf * k)))
    ∧ s.get "risk_ema9"
        = some (.num (e9 - max (stopSwingOf idf) (e9 - atrValue idf * k)))
    ∧ (0 < e9 - max (stopSwingOf idf) (e9 - atrValue idf * k) →
        s.get "target_ema9" = some (.num
          (e9 + (e9 - max (stopSwingOf idf) (e9 - atrValue idf * k)) * rr)))
    ∧ (¬ 0 < e9 - max (stopSwingOf idf) (e9 - atrValue idf * k) →
        s.get "target_ema9" = some .null)
    ∧ (0 < e20 - max (stopSwingOf idf) (e9 - atrValue idf * k) →
        s.get "target_ema20" = some (.num
          (e20 + (e20 - max (stopSwingOf idf) (e9 - atrValue idf * k)) * rr))) := by
  unfold calculate_setup at hs
  split at hs
  · exact absurd hs (by simp)
  · simp only [hema9, hema20] at hs
    rw [if_pos hatr] at hs
    simp only [decide_eq_true hsa, decide_eq_true hsw, Bool.and_self, if_true] at hs
    simp only [Option.some.injEq] at hs
    subst hs
    refine ⟨rfl, rfl, ?_, ?_, ?_⟩
    · intro h
      show some (ofONull (if e9 - (stopSwingOf idf ⊔ (e9 - atrValue idf * k)) > 0
            then some (e9 + (e9 - (stopSwingOf idf ⊔ (e9 - atrValue idf * k))) * rr) else none))
          = some (AttrVal.num (e9 + (e9 - (stopSwingOf idf ⊔ (e9 - atrValue idf * k))) * rr))
      rw [if_pos h]
      rfl
    · intro h
      show some (ofONull (if e9 - (stopSwingOf idf ⊔ (e9 - atrValue idf * k)) > 0
            then some (e9 + (e9 - (stopSwingOf idf ⊔ (e9 - atrValue idf * k))) * rr) else none))
          = some AttrVal.null
      rw [if_neg h]
      rfl
    · intro h
      show some (ofONull (if e20 - (stopSwingOf idf ⊔ (e9 - atrValue idf * k)) > 0
            then some (e20 + (e20 - (stopSwingOf idf ⊔ (e9 - atrValue idf * k))) * rr) else none))
          = some (AttrVal.num (e20 + (e20 - (stopSwingOf idf ⊔ (e9 - atrValue idf * k))) * rr))
      rw [if_pos h]
      rfl

/-- C8 witness: on the concrete 20-candle frame the ATR is 1, both stop
candidates are nonzero, the chosen stop is the higher of the swing stop
and the ATR stop, and the EMA9 target is entry plus risk times the
reward multiple. -/
theorem C8_stop_targets_w :
    ((c8df.getLast?).getD default).ema_9 = some (mkRat 52 5)
    ∧ calculate_setup c8df [] (6/5) (7/10) = some c8setup
    ∧ 0 < atrValue c8df
    ∧ mkRat 52 5 - atrValue c8df * (7/10) ≠ 0
    ∧ stopSwingOf c8df ≠ 0
    ∧ c8setup.get "stop_loss"
        = some (.num (max (stopSwingOf c8df) (mkRat 52 5 - atrValue c8df * (7/10))))
    ∧ 0 < mkRat 52 5 - max (stopSwingOf c8df) (mkRat 52 5 - atrValue c8df * (7/10))
    ∧ c8setup.get "target_ema9"
        = some (.num (mkRat 52 5
            + (mkRat 52 5 - max (stopSwingOf c8df) (mkRat 52 5 - atrValue c8df * (7/10))) * (6/5))) := by
  have hs : calculate_setup c8df [] (6/5) (7/10) = some c8setup := by with_unfolding_all rfl
  have h1 : 0 < atrValue c8df := by with_unfolding_all decide
  have h2 : mkRat 52 5 - atrValue c8df * (7/10) ≠ 0 := by with_unfolding_all decide
  have h3 : stopSwingOf c8df ≠ 0 := by with_unfolding_all decide
  have hpos : 0 < mkRat 52 5 - max (stopSwingOf c8df) (mkRat 52 5 - atrValue c8df * (7/10)) := by
    with_unfolding_all decide
  have hc := C8_stop_targets c8df [] (6/5) (7/10) c8setup (mkRat 52 5) (mkRat 103 10)
    rfl rfl hs h1 h2 h3
  exact ⟨rfl, hs, h1, h2, h3, hc.1, hpos, hc.2.2.1 hpos⟩

/-- The R:R gate of `validate_trade_quality`: when the stop-distance
band does not reject, the R:R guard holds and the computed ratio is below
the minimum, the candidate is rejected with the "R:R too low" reason. -/
theorem validate_rr_fail (s : Attrs) (p : ℚ) (analysis : Attrs)
    (hne : s.isEmpty = false)
    (hd1 : (s.truthyAt "stop_loss"
      && oLt (stopDistPct s p) (some FILTER_THRESHOLDS.MIN_STOP_DISTANCE)) = false)
    (hd2 : (s.truthyAt "stop_loss"
      && oLt (some FILTER_THRESHOLDS.MAX_STOP_DISTANCE) (stopDistPct s p)) = false)
    (hguard : (oLt (some 0) (s.getNum "risk_ema9" 0)
      && s.truthyAt "target_ema9" && s.truthyAt "ema9") = true)
    (hlow : oLt (rrRatio s) (some FILTER_THRESHOLDS.MIN_RISK_REWARD) = true) :
    validate_trade_quality s p analysis
      = (false, [("reason", .reasonV (.rrTooLow ((rrRatio s).getD 0)))]) := by
  unfold validate_trade_quality
  rw [if_neg (by rw [hne]; exact Bool.false_ne_true)]
  rw [if_neg (by rw [hd1]; exact Bool.false_ne_true)]
  rw [if_neg (by rw [hd2]; exact Bool.false_ne_true)]
  rw [if_pos (by rw [hguard, hlow]; rfl)]

/-- C9: any setup produced with the default reward multiple 1.2 whose
EMA9 risk is positive and whose target/entry are truthy has a computed
risk:reward of exactly 1.2, below the 1.5 minimum, so a quality check
that reaches the R:R gate rejects it with the "R:R too low" reason. -/
theorem C9_default_rr_rejected (idf : List IRow) (ddf : List DailyRow) (s : Attrs)
    (e9 e20 : ℚ) (p : ℚ) (analysis : Attrs)
    (hema9 : ((idf.getLast?).getD default).ema_9 = some e9)
    (hema20 : ((idf.getLast?).getD default).ema_20_intraday = some e20)
    (hs : calculate_setup idf ddf = some s)
    (hr : oLt (some 0) (s.getNum "risk_ema9" 0) = true)
    (htarget : s.truthyAt "target_ema9" = true)
    (hema : s.truthyAt "ema9" = true)
    (hd1 : (s.truthyAt "stop_loss"
      && oLt (stopDistPct s p) (some FILTER_THRESHOLDS.MIN_STOP_DISTANCE)) = false)
    (hd2 : (s.truthyAt "stop_loss"
      && oLt (some FILTER_THRESHOLDS.MAX_STOP_DISTANCE) (stopDistPct s p)) = false) :
    rrRatio s = some (6/5)
    ∧ (6/5 : ℚ) < FILTER_THRESHOLDS.MIN_RISK_REWARD
    ∧ validate_trade_quality s p analysis
      = (false, [("reason", .reasonV (.rrTooLow (6/5)))]) := by
  unfold calculate_setup at hs
  split at hs
  · exact absurd hs (by simp)
  · simp only [hema9, hema20] at hs
    split at hs
    · exact absurd hs (by simp)
    · rename_i sm heq
      simp only [Option.some.injEq] at hs
      have hne : s.isEmpty = false := by rw [← hs]; rfl
      have hriskget : s.getNum "risk_ema9" 0 = some (e9 - sm.1) := by rw [← hs]; rfl
      have hrpos : 0 < e9 - sm.1 := by
        rw [hriskget] at hr
        simpa [oLt] using hr
      have htargetget : s.get "target_ema9"
          = some (.num (e9 + (e9 - sm.1) * (6/5))) := by
        rw [← hs]
        show some (ofONull (if e9 - sm.1 > 0 then some (e9 + (e9 - sm.1) * (6/5)) else none)) = _
        rw [if_pos hrpos]
        rfl
      have hemaget : s.get "ema9" = some (.num e9) := by rw [← hs]; rfl
      have hrr : rrRatio s = some (6/5) := by
        unfold rrRatio
        rw [htargetget, hemaget, hriskget]
        show some ((e9 + (e9 - sm.1) * (6/5) - e9) / (e9 - sm.1)) = some (6/5)
        congr 1
        field_simp
        ring
      have hlt : (6/5 : ℚ) < FILTER_THRESHOLDS.MIN_RISK_REWARD := by norm_num [FILTER_THRESHOLDS]
      have hlow : oLt (rrRatio s) (some FILTER_THRESHOLDS.MIN_RISK_REWARD) = true := by
        rw [hrr]
        simpa [oLt] using hlt
      have hv := validate_rr_fail s p analysis hne hd1 hd2
        (by rw [hriskget, htarget, hema]; simpa [oLt] using hrpos) hlow
      rw [hrr] at hv
      exact ⟨hrr, hlt, hv⟩

/-- C9 witness: the concrete setup from `c8df` has risk 0.41 > 0, truthy
target and entry, a stop distance of about 1.09% from price 10.1 (inside
the band), computed R:R exactly 1.2 < 1.5, and is rejected with the
"R:R too low" reason. -/
theorem C9_default_rr_rejected_w :
    calculate_setup c8df [] = some c8setup
    ∧ oLt (some 0) (c8setup.getNum "risk_ema9" 0) = true
    ∧ c8setup.truthyAt "target_ema9" = true
    ∧ c8setup.truthyAt "ema9" = true
    ∧ (c8setup.truthyAt "stop_loss"
        && oLt (stopDistPct c8setup (mkRat 101 10)) (some FILTER_THRESHOLDS.MIN_STOP_DISTANCE)) = false
    ∧ (c8setup.truthyAt "stop_loss"
        && oLt (some FILTER_THRESHOLDS.MAX_STOP_DISTANCE) (stopDistPct c8setup (mkRat 101 10))) = false
    ∧ rrRatio c8setup = some (6/5)
    ∧ validate_trade_quality c8setup (mkRat 101 10) []
        = (false, [("reason", .reasonV (.rrTooLow (6/5)))]) := by
  have hs : calculate_setup c8df [] = some c8setup := by with_unfolding_all rfl
  have h1 : oLt (some 0) (c8setup.getNum "risk_ema9" 0) = true := by with_unfolding_all decide
  have h2 : c8setup.truthyAt "target_ema9" = true := by with_unfolding_all decide
  have h3 : c8setup.truthyAt "ema9" = true := by with_unfolding_all decide
  have h4 : (c8setup.truthyAt "stop_loss"
      && oLt (stopDistPct c8setup (mkRat 101 10)) (some FILTER_THRESHOLDS.MIN_STOP_DISTANCE)) = false := by
    with_unfolding_all decide
  have h5 : (c8setup.truthyAt "stop_loss"
      && oLt (some FILTER_THRESHOLDS.MAX_STOP_DISTANCE) (stopDistPct c8setup (mkRat 101 10))) = false := by
    with_unfolding_all decide
  have hc := C9_default_rr_rejected c8df [] c8setup (mkRat 52 5) (mkRat 103 10)
    (mkRat 101 10) [] rfl rfl hs h1 h2 h3 h4 h5
  exact ⟨hs, h1, h2, h3, h4, h5, hc.1, hc.2.2⟩

/-! ## Fail-open quality validation -/

/-- C10: `validate_trade_quality` is fail-open on missing inputs. With a
falsy `stop_loss` the stop-distance band check is skipped (the result
does not even depend on the current price); and a nonempty setup with a
falsy stop, an unsatisfied R:R guard and no S/R distances passes
validation with `passed = True` and no other metric. -/
theorem C10_fail_open :
    (∀ (setup : Attrs) (p q : ℚ) (analysis : Attrs),
      setup.truthyAt "stop_loss" = false →
      validate_trade_quality setup p analysis = validate_trade_quality setup q analysis)
    ∧ (∀ (setup : Attrs) (p : ℚ) (analysis : Attrs),
      setup.isEmpty = false →
      setup.truthyAt "stop_loss" = false →
      (oLt (some 0) (setup.getNum "risk_ema9" 0) && setup.truthyAt "target_ema9"
        && setup.truthyAt "ema9") = false →
      (((analysis.get "sr_levels").getD (.dict [])).asDict).hasKey "resistance_distance_pct" = false →
      (((analysis.get "sr_levels").getD (.dict [])).asDict).hasKey "support_distance_pct" = false →
      validate_trade_quality setup p analysis = (true, [("passed", .bool true)])) := by
  constructor
  · intro setup p q analysis hstop
    unfold validate_trade_quality
    simp only [hstop, Bool.false_and, Bool.false_eq_true, if_false]
  · intro setup p analysis hne hstop hguard hres hsup
    unfold validate_trade_quality
    rw [if_neg (by rw [hne]; exact Bool.false_ne_true)]
    simp only [hstop, Bool.false_and, Bool.false_eq_true, if_false]
    rw [if_neg (by rw [hguard]; simp)]
    simp only [hguard, Bool.false_eq_true, if_false]
    rw [if_neg (by rw [hres]; simp)]
    simp only [hres, Bool.false_eq_true, if_false]
    rw [if_neg (by rw [hsup]; simp)]
    simp only [hsup, Bool.false_eq_true, if_false]
    rfl

/-- C10 witness: a nonempty setup dict with none of the quality inputs
passes validation with `passed = True`, independent of the price. -/
theorem C10_fail_open_w :
    (Attrs.truthyAt [("ltp", AttrVal.num 10)] "stop_loss" = false)
    ∧ validate_trade_quality [("ltp", AttrVal.num 10)] 5 []
        = validate_trade_quality [("ltp", AttrVal.num 10)] 7 []
    ∧ (([("ltp", AttrVal.num 10)] : Attrs).isEmpty = false)
    ∧ validate_trade_quality [("ltp", AttrVal.num 10)] 5 []
        = (true, [("passed", .bool true)]) := by
  refine ⟨rfl, C10_fail_open.1 [("ltp", AttrVal.num 10)] 5 7 [] rfl, rfl, ?_⟩
  exact C10_fail_open.2 [("ltp", AttrVal.num 10)] 5 [] rfl rfl rfl rfl rfl

/-! ## Scoring weights are not validated anywhere -/

/-- C2 counterexample: a profile whose weights sum to 90 (not 100) is
nevertheless scored to a definite value — nothing rejects it, at load
time or any other time: configuration loading is plain constant binding
that always succeeds. -/
theorem C2_cex :
    ScoringWeights.total badWeights = 90
    ∧ ¬ScoringWeights.total badWeights = 100
    ∧ loadSwingConfig = Except.ok (FILTER_THRESHOLDS, SCORING_WEIGHTS, MAX_STOCKS_TO_SELECT)
    ∧ calculate_total_score_w badWeights [] = 25 := by
  refine ⟨by norm_num [ScoringWeights.total, badWeights, SCORING_WEIGHTS], ?_, rfl, ?_⟩
  · norm_num [ScoringWeights.total, badWeights, SCORING_WEIGHTS]
  · with_unfolding_all decide

/-- C2 (amended): the configured swing weights do sum to 100, but no
load-time check exists — loading the configuration cannot fail, and the
scorer applies whatever weights are configured, without validating their
sum, as the plain weighted-sum formula. -/
theorem C2_weights_unchecked (w : ScoringWeights) (fr : Attrs) :
    SCORING_WEIGHTS.total = 100
    ∧ loadSwingConfig = Except.ok (FILTER_THRESHOLDS, SCORING_WEIGHTS, MAX_STOCKS_TO_SELECT)
    ∧ calculate_total_score_w w fr = round2 (weightedTotal w fr) :=
  ⟨by norm_num [ScoringWeights.total, SCORING_WEIGHTS], rfl, rfl⟩

/-! ## Exceptions abort the universe scan -/

/-- C7 counterexample: with an exception raised while evaluating the
first symbol, the filtering loop propagates the error and the run
aborts — the second symbol's result never appears, no per-symbol
rejection reason is recorded, and the claim's "evaluation continues with
the next symbol" fails. -/
theorem C7_cex :
    evalBoom "ADANIENT" = .error "boom"
    ∧ isOkE (evalBoom "AXISBANK") = true
    ∧ filterLoop evalBoom ["ADANIENT", "AXISBANK"] = .error "boom"
    ∧ mainScan evalBoom ["ADANIENT", "AXISBANK"] = .aborted "boom"
    ∧ (mainScan evalBoom ["ADANIENT", "AXISBANK"]).isAborted = true :=
  ⟨rfl, rfl, rfl, rfl, rfl⟩

/-- C7 (amended): an unexpected exception while evaluating one symbol is
not caught per-symbol: whatever symbols follow, it propagates out of the
filtering loop to the run-level handler, which aborts the whole scan. -/
theorem C7_exception_aborts (evalSym : String → Except String (Bool × Attrs))
    (pre post : List String) (sym : String) (e : String)
    (hpre : ∀ t ∈ pre, isOkE (evalSym t) = true)
    (herr : evalSym sym = .error e) :
    filterLoop evalSym (pre ++ sym :: post) = .error e
    ∧ mainScan evalSym (pre ++ sym :: post) = .aborted e := by
  have hf : filterLoop evalSym (pre ++ sym :: post) = .error e := by
    induction pre with
    | nil => simp [filterLoop, herr]
    | cons t ts ih =>
      have ht := hpre t (List.mem_cons_self t ts)
      rcases hot : evalSym t with f | pr
      · rw [hot] at ht
        exact absurd ht (by simp [isOkE])
      · show filterLoop evalSym (t :: (ts ++ sym :: post)) = .error e
        simp only [filterLoop, hot]
        rw [ih (fun u hu => hpre u (List.mem_cons_of_mem t hu))]
  exact ⟨hf, by simp [mainScan, hf]⟩

/-- C7 witness: one clean symbol, then the raising symbol, then another
symbol: the loop errors out and the scan aborts. -/
theorem C7_exception_aborts_w :
    filterLoop evalBoom (["RELIANCE"] ++ "ADANIENT" :: ["TCS"]) = .error "boom"
    ∧ mainScan evalBoom (["RELIANCE"] ++ "ADANIENT" :: ["TCS"]) = .aborted "boom" :=
  C7_exception_aborts evalBoom ["RELIANCE"] ["TCS"] "ADANIENT" "boom" (by decide) rfl

end StockSelector
